import Mathlib

/-!
# gRPCPaymentGateway: bank participant and gateway coordinator

A shallow embedding of `server/bankserver.go`, `server/utils.go`,
`gateway/transaction.go`, `gateway/accounts.go`, `gateway/history.go`,
`gateway/auth.go` and the offline queue of `client/commands.go`.

Conventions of the embedding:

* Go maps (`map[string]*Account`, `sync.Map`) are association lists keyed by
  `String`; `Load` reads the first binding of a key, `Store` rewrites that
  binding in place or adds one, `Delete` removes the bindings of a key.
* In the first development of the bank and of the gateway, `float64` balances
  and amounts are read as exact numbers and carried as `Int` (either sign).
* Namespace `IEEE` gives the bank handlers and the client's offline queue on
  `float64` values proper: NaN, the two infinities and the finite values, with
  Go's comparisons and arithmetic on them.
* Namespace `Coordinator` gives `ProcessPayment` over any bank connections
  (whatever a bank answers to a call), with the outcome of the write of the
  history file, and records the bank calls as they are made; the run over a
  `Network` of the first development is one instance of it
  (`Coordinator.ProcessPayment_ofNetwork`).
* A Go result `(resp, err)` is an `Except` value.
* Handlers are state passing: they return their response together with the
  state they leave behind.
* Mutexes and logging have no effect on the values modelled here. In the first
  development the history file is carried as the list of records it holds and
  every write of it succeeds.
-/

namespace PaymentGateway

/-! ## Maps -/

/-- Read of a Go map: `v, ok := m[k]` (also `sync.Map.Load`). -/
def Load {α : Type} (k : String) : List (String × α) → Option α
  | [] => none
  | (k', v) :: m => if k' = k then some v else Load k m

/-- Write of a Go map: `m[k] = v` (also `sync.Map.Store`). -/
def Store {α : Type} (k : String) (v : α) : List (String × α) → List (String × α)
  | [] => [(k, v)]
  | (k', v') :: m => if k' = k then (k, v) :: m else (k', v') :: Store k v m

/-- Removal from a Go map: `sync.Map.Delete`. -/
def Delete {α : Type} (k : String) : List (String × α) → List (String × α)
  | [] => []
  | (k', v') :: m => if k' = k then Delete k m else (k', v') :: Delete k m

/-- Equality of Go results `(resp, err)` is decidable. -/
instance decEqExcept {ε α : Type} [DecidableEq ε] [DecidableEq α] :
    DecidableEq (Except ε α)
  | .ok a, .ok b =>
    if h : a = b then isTrue (by rw [h]) else isFalse (fun h' => h (Except.ok.inj h'))
  | .error a, .error b =>
    if h : a = b then isTrue (by rw [h]) else isFalse (fun h' => h (Except.error.inj h'))
  | .ok _, .error _ => isFalse (fun h' => Except.noConfusion h')
  | .error _, .ok _ => isFalse (fun h' => Except.noConfusion h')

/-! ## Bank server (`server/utils.go`, `server/bankserver.go`) -/

/-- The `Account` struct of `server/utils.go`. -/
structure Account where
  Username : String
  Password : String
  Balance : Int
deriving DecidableEq, Repr

/-- The `BankServer` struct: its account map (the mutex, the bank name and the
file name do not enter the responses or the balances). -/
structure BankServer where
  accounts : List (String × Account)
deriving DecidableEq, Repr

/-- Message `PrepareRequest`. -/
structure PrepareRequest where
  TransactionId : String
  Account : String
  Amount : Int
deriving DecidableEq, Repr

/-- Message `PrepareResponse`. -/
structure PrepareResponse where
  Vote : Bool
  Message : String
deriving DecidableEq, Repr

/-- Message `CommitRequest`. -/
structure CommitRequest where
  TransactionId : String
  Account : String
  Amount : Int
  IsSender : Bool
deriving DecidableEq, Repr

/-- Message `CommitResponse`. -/
structure CommitResponse where
  Success : Bool
  Message : String
deriving DecidableEq, Repr

/-- Message `AbortRequest`. -/
structure AbortRequest where
  TransactionId : String
deriving DecidableEq, Repr

/-- Message `AbortResponse`. -/
structure AbortResponse where
  Success : Bool
  Message : String
deriving DecidableEq, Repr

/-- Message `GetBalanceRequest`. -/
structure GetBalanceRequest where
  Username : String
deriving DecidableEq, Repr

/-- Message `GetBalanceResponse`. -/
structure GetBalanceResponse where
  Balance : Int
deriving DecidableEq, Repr

/-- Handler `BankServer.PreparePayment`: the response and the state left behind. -/
def BankServer.PreparePayment (s : BankServer) (req : PrepareRequest) :
    Except String PrepareResponse × BankServer :=
  match Load req.Account s.accounts with
  | none => (.ok { Vote := false, Message := "Account not found" }, s)
  | some acc =>
    if acc.Balance < req.Amount then
      (.ok { Vote := false, Message := "Insufficient funds" }, s)
    else
      (.ok { Vote := true, Message := "Prepared successfully" }, s)

/-- Handler `BankServer.CommitPayment`: the response and the state left behind.
`acc.Balance -= req.Amount` through the map's pointer is a rewrite of the
binding of `req.Account`. -/
def BankServer.CommitPayment (s : BankServer) (req : CommitRequest) :
    Except String CommitResponse × BankServer :=
  match Load req.Account s.accounts with
  | none => (.ok { Success := false, Message := "Account not found" }, s)
  | some acc =>
    if req.IsSender then
      if acc.Balance < req.Amount then
        (.ok { Success := false, Message := "Insufficient funds on commit" }, s)
      else
        (.ok { Success := true, Message := "Commit successful" },
          { s with accounts :=
              Store req.Account { acc with Balance := acc.Balance - req.Amount } s.accounts })
    else
      (.ok { Success := true, Message := "Commit successful" },
        { s with accounts :=
            Store req.Account { acc with Balance := acc.Balance + req.Amount } s.accounts })

/-- Handler `BankServer.AbortPayment`: `cancelled` says which arm of the `select` fires,
the caller's cancellation (`ctx.Done()`) or the abort timeout. -/
def BankServer.AbortPayment (s : BankServer) (cancelled : Bool) (_req : AbortRequest) :
    Except String AbortResponse × BankServer :=
  if cancelled then
    (.error "context canceled", s)
  else
    (.ok { Success := true, Message := "Abort processed after timeout" }, s)

/-- Handler `BankServer.GetBalance`. -/
def BankServer.GetBalance (s : BankServer) (req : GetBalanceRequest) :
    Except String GetBalanceResponse × BankServer :=
  match Load req.Username s.accounts with
  | none => (.error "account not found", s)
  | some acc => (.ok { Balance := acc.Balance }, s)

/-- Balance of an account of a bank, when the account exists. -/
def BankServer.balance (s : BankServer) (u : String) : Option Int :=
  (Load u s.accounts).map (·.Balance)

/-- Sum of the balances held by a bank. -/
def BankServer.total (s : BankServer) : Int :=
  (s.accounts.map (fun p => p.2.Balance)).sum

/-! ## Gateway (`gateway/accounts.go`, `gateway/transaction.go`) -/

/-- Code `codes.InvalidArgument` of gRPC. -/
def codes.InvalidArgument : Nat := 3

/-- Code `codes.FailedPrecondition` of gRPC. -/
def codes.FailedPrecondition : Nat := 9

/-- Code `codes.Aborted` of gRPC. -/
def codes.Aborted : Nat := 10

/-- Error built by `status.Errorf(code, message)`. -/
structure Status where
  code : Nat
  message : String
deriving DecidableEq, Repr

/-- The `registeredUser` struct of `gateway/accounts.go`. -/
structure registeredUser where
  password : String
  bank : String
deriving DecidableEq, Repr

/-- The `TransactionRecord` struct of `gateway/transaction.go`. -/
structure TransactionRecord where
  TransactionId : String
  Sender : String
  Receiver : String
  Amount : Int
  Timestamp : String
  Message : String
deriving DecidableEq, Repr

/-- Message `TransactionRequest`. -/
structure TransactionRequest where
  TransactionId : String
  SenderUsername : String
  ReceiverUsername : String
  Amount : Int
  SenderBank : String
  ReceiverBank : String
  IdempotencyKey : String
deriving DecidableEq, Repr

/-- Message `TransactionResponse`. -/
structure TransactionResponse where
  Success : Bool
  Message : String
deriving DecidableEq, Repr

/-- The `PaymentGatewayServer` struct: the idempotency ledger `processedTxs`,
the user registry `users`, and the records held by `historyFile`. -/
structure PaymentGatewayServer where
  processedTxs : List (String × Bool)
  users : List (String × registeredUser)
  history : List TransactionRecord
deriving DecidableEq, Repr

/-- Method `storeTransactionRecord`: the records of the file with `record`
appended. -/
def PaymentGatewayServer.storeTransactionRecord (s : PaymentGatewayServer)
    (record : TransactionRecord) : PaymentGatewayServer :=
  { s with history := s.history ++ [record] }

/-- Fate of one RPC from the gateway to a bank: the reply comes back, the
request never reaches the bank, or the bank runs the handler and the reply is
lost (a timeout of `ctx2`, a broken connection). -/
inductive Link where
  | delivered
  | requestLost
  | replyLost
deriving DecidableEq, Repr

/-- What lies outside the gateway during one `ProcessPayment`: the clock, the
result of `grpc.Dial` per target (`some err` when it fails), the fate of each
of the five bank RPCs, and which arm of the bank's abort `select` fires. -/
structure Network where
  now : String
  dial : String → Option String
  senderPrepare : Link
  receiverPrepare : Link
  senderAbort : Link
  senderCommit : Link
  receiverCommit : Link
  abortCancelled : Bool

/-- One RPC to the bank listening at `target`: the `(resp, err)` seen by the
gateway and the banks afterwards. -/
def rpc {R : Type} (link : Link) (banks : List (String × BankServer)) (target : String)
    (handler : BankServer → Except String R × BankServer) :
    Except String R × List (String × BankServer) :=
  match link with
  | .requestLost => (.error "rpc error: code = Unavailable", banks)
  | .delivered =>
    match Load target banks with
    | none => (.error "rpc error: code = Unavailable", banks)
    | some b => ((handler b).1, Store target (handler b).2 banks)
  | .replyLost =>
    match Load target banks with
    | none => (.error "rpc error: code = Unavailable", banks)
    | some b => (.error "rpc error: code = DeadlineExceeded", Store target (handler b).2 banks)

/-- The test `err != nil || !resp.Vote`, negated. -/
def voted : Except String PrepareResponse → Bool
  | .ok r => r.Vote
  | .error _ => false

/-- The test `err != nil || !resp.Success`, negated. -/
def succeeded : Except String CommitResponse → Bool
  | .ok r => r.Success
  | .error _ => false

/-- A call issued by the gateway to a bank, with the target address, the
request, and whether the gateway saw it return without error with a true
vote or success. -/
inductive BankCall where
  | PreparePayment (target : String) (req : PrepareRequest) (ok : Bool)
  | CommitPayment (target : String) (req : CommitRequest) (ok : Bool)
  | AbortPayment (target : String) (req : AbortRequest)
deriving DecidableEq, Repr

/-- Result of one `ProcessPayment`: the `(resp, err)` returned, the gateway and
the banks afterwards, and the bank calls issued, in order. -/
structure Run where
  resp : Except Status TransactionResponse
  gateway : PaymentGatewayServer
  banks : List (String × BankServer)
  calls : List BankCall
deriving DecidableEq, Repr

/-- Method `PaymentGatewayServer.ProcessPayment`. -/
def PaymentGatewayServer.ProcessPayment (s : PaymentGatewayServer) (net : Network)
    (banks : List (String × BankServer)) (req : TransactionRequest) : Run :=
  if (Load req.SenderUsername s.users).isNone || (Load req.ReceiverUsername s.users).isNone then
    ⟨.error ⟨codes.FailedPrecondition, "One or both users are not registered"⟩, s, banks, []⟩
  else if req.IdempotencyKey = "" then
    ⟨.error ⟨codes.InvalidArgument, "IdempotencyKey must be provided"⟩, s, banks, []⟩
  else
  match Load req.IdempotencyKey s.processedTxs with
  | some result =>
    ⟨.ok ⟨true, "Transaction already processed: " ++ toString result⟩, s, banks, []⟩
  | none =>
  let s : PaymentGatewayServer :=
    { s with processedTxs := Store req.IdempotencyKey false s.processedTxs }
  match net.dial req.SenderBank with
  | some err =>
    ⟨.error ⟨codes.FailedPrecondition, "Error connecting to sender bank: " ++ err⟩, s, banks, []⟩
  | none =>
  match net.dial req.ReceiverBank with
  | some err =>
    ⟨.error ⟨codes.FailedPrecondition, "Error connecting to receiver bank: " ++ err⟩,
      s, banks, []⟩
  | none =>
  let aborted : PaymentGatewayServer :=
    { s with processedTxs := Store req.IdempotencyKey false s.processedTxs }
  -- Phase 1: Prepare on sender.
  let senderPrepReq : PrepareRequest := ⟨req.TransactionId, req.SenderUsername, req.Amount⟩
  let senderPrep := rpc net.senderPrepare banks req.SenderBank
    (fun b => b.PreparePayment senderPrepReq)
  let c1 := BankCall.PreparePayment req.SenderBank senderPrepReq (voted senderPrep.1)
  if !voted senderPrep.1 then
    ⟨.error ⟨codes.Aborted, "Sender bank aborted the transaction"⟩, aborted, senderPrep.2, [c1]⟩
  else
  -- Phase 1: Prepare on receiver.
  let receiverPrepReq : PrepareRequest := ⟨req.TransactionId, req.ReceiverUsername, req.Amount⟩
  let receiverPrep := rpc net.receiverPrepare senderPrep.2 req.ReceiverBank
    (fun b => b.PreparePayment receiverPrepReq)
  let c2 := BankCall.PreparePayment req.ReceiverBank receiverPrepReq (voted receiverPrep.1)
  if !voted receiverPrep.1 then
    -- Abort on sender side; its result is dropped.
    let abortReq : AbortRequest := ⟨req.TransactionId⟩
    let senderAbort := rpc net.senderAbort receiverPrep.2 req.SenderBank
      (fun b => b.AbortPayment net.abortCancelled abortReq)
    ⟨.error ⟨codes.Aborted, "Receiver bank aborted the transaction"⟩, aborted, senderAbort.2,
      [c1, c2, BankCall.AbortPayment req.SenderBank abortReq]⟩
  else
  -- Phase 2: Commit on sender.
  let senderCommitReq : CommitRequest :=
    ⟨req.TransactionId, req.SenderUsername, req.Amount, true⟩
  let senderCommit := rpc net.senderCommit receiverPrep.2 req.SenderBank
    (fun b => b.CommitPayment senderCommitReq)
  let c3 := BankCall.CommitPayment req.SenderBank senderCommitReq (succeeded senderCommit.1)
  if !succeeded senderCommit.1 then
    ⟨.error ⟨codes.Aborted, "Sender bank commit failed"⟩, aborted, senderCommit.2, [c1, c2, c3]⟩
  else
  -- Phase 2: Commit on receiver.
  let receiverCommitReq : CommitRequest :=
    ⟨req.TransactionId, req.ReceiverUsername, req.Amount, false⟩
  let receiverCommit := rpc net.receiverCommit senderCommit.2 req.ReceiverBank
    (fun b => b.CommitPayment receiverCommitReq)
  let c4 := BankCall.CommitPayment req.ReceiverBank receiverCommitReq
    (succeeded receiverCommit.1)
  if !succeeded receiverCommit.1 then
    ⟨.error ⟨codes.Aborted, "Receiver bank commit failed"⟩, aborted, receiverCommit.2,
      [c1, c2, c3, c4]⟩
  else
  let committed : PaymentGatewayServer :=
    { s with processedTxs := Store req.IdempotencyKey true s.processedTxs }
  let record : TransactionRecord :=
    { TransactionId := req.TransactionId
      Sender := req.SenderUsername
      Receiver := req.ReceiverUsername
      Amount := req.Amount
      Timestamp := net.now
      Message := "Transaction committed successfully" }
  ⟨.ok ⟨true, "Transaction committed successfully"⟩, committed.storeTransactionRecord record,
    receiverCommit.2, [c1, c2, c3, c4]⟩

/-- Successive `ProcessPayment` calls served by one gateway, each on the gateway
and the banks the previous call left. -/
def PaymentGatewayServer.serve (s : PaymentGatewayServer) (banks : List (String × BankServer)) :
    List (Network × TransactionRequest) → List Run
  | [] => []
  | (net, req) :: rest =>
    (s.ProcessPayment net banks req) ::
      PaymentGatewayServer.serve (s.ProcessPayment net banks req).gateway
        (s.ProcessPayment net banks req).banks rest

/-- Balance of account `u` at the bank listening at `target`, when both exist. -/
def balanceAt (banks : List (String × BankServer)) (target u : String) : Option Int :=
  (Load target banks).bind (fun b => b.balance u)

/-- Sum of all balances of all banks. -/
def totalBalance (banks : List (String × BankServer)) : Int :=
  (banks.map (fun p => p.2.total)).sum

/-- A network in which every dial and every RPC succeeds. -/
def Network.reliable (now : String) : Network :=
  { now := now
    dial := fun _ => none
    senderPrepare := .delivered
    receiverPrepare := .delivered
    senderAbort := .delivered
    senderCommit := .delivered
    receiverCommit := .delivered
    abortCancelled := false }

/-- The state a successful `CommitPayment` of `c` leaves at bank `b`, where
`acc` is the account bound to `c.Account`. -/
def credited (b : BankServer) (c : CommitRequest) (acc : Account) : BankServer :=
  { accounts :=
      Store c.Account
        ⟨acc.Username, acc.Password,
          if c.IsSender then acc.Balance - c.Amount else acc.Balance + c.Amount⟩
        b.accounts }

/-- A `CommitPayment` call that asks for a debit (isSender = true). -/
def BankCall.isSenderCommit : BankCall → Bool
  | .CommitPayment _ req _ => req.IsSender
  | _ => false

/-- A network that is reliable except that the receiver's `CommitPayment`
request never reaches the bank. -/
def Network.receiverCommitLost (now : String) : Network :=
  { now := now
    dial := fun _ => none
    senderPrepare := .delivered
    receiverPrepare := .delivered
    senderAbort := .delivered
    senderCommit := .delivered
    receiverCommit := .requestLost
    abortCancelled := false }

/-- The response of a committed `ProcessPayment`. -/
def committedResponse : Except Status TransactionResponse :=
  .ok ⟨true, "Transaction committed successfully"⟩

/-- The run ended aborted: an error whose code is `codes.Aborted`. -/
def Run.aborted (r : Run) : Prop :=
  ∃ msg, r.resp = .error ⟨codes.Aborted, msg⟩

/-! ## The scenario of the specification

alice is registered with BankA and bob with BankB; the accounts hold `bs` and
`br`; alice pays bob `a` under the key `k1`. -/

/-- Gateway with alice and bob registered, an empty ledger and an empty history. -/
def scenarioGateway : PaymentGatewayServer :=
  { processedTxs := []
    users := [("alice", ⟨"secret", "BankA:50052"⟩), ("bob", ⟨"secret", "BankB:50053"⟩)]
    history := [] }

/-- BankA holding alice with `bs` and BankB holding bob with `br`. -/
def scenarioBanks (bs br : Int) : List (String × BankServer) :=
  [("BankA:50052", ⟨[("alice", ⟨"alice", "secret", bs⟩)]⟩),
   ("BankB:50053", ⟨[("bob", ⟨"bob", "secret", br⟩)]⟩)]

/-- The request of alice paying bob `a`. -/
def scenarioRequest (a : Int) : TransactionRequest :=
  { TransactionId := "1700000000000000000"
    SenderUsername := "alice"
    ReceiverUsername := "bob"
    Amount := a
    SenderBank := "BankA:50052"
    ReceiverBank := "BankB:50053"
    IdempotencyKey := "k1" }

/-- A `PreparePayment` or `CommitPayment` call that the gateway saw fail: an
RPC error, a false vote or success = false. -/
def BankCall.failed : BankCall → Bool
  | .PreparePayment _ _ ok => !ok
  | .CommitPayment _ _ ok => !ok
  | .AbortPayment _ _ => false

/-- The history record written by a committed `ProcessPayment` of `req`. -/
def committedRecord (net : Network) (req : TransactionRequest) : TransactionRecord :=
  { TransactionId := req.TransactionId
    Sender := req.SenderUsername
    Receiver := req.ReceiverUsername
    Amount := req.Amount
    Timestamp := net.now
    Message := "Transaction committed successfully" }

/-- The gateway left by successive `ProcessPayment` calls. -/
def PaymentGatewayServer.serveFinal (s : PaymentGatewayServer)
    (banks : List (String × BankServer)) :
    List (Network × TransactionRequest) → PaymentGatewayServer
  | [] => s
  | (net, req) :: rest =>
    PaymentGatewayServer.serveFinal (s.ProcessPayment net banks req).gateway
      (s.ProcessPayment net banks req).banks rest

/-- The committed calls among successive `ProcessPayment` calls, in order:
the idempotency key of each with the record it wrote. -/
def PaymentGatewayServer.serveLog (s : PaymentGatewayServer)
    (banks : List (String × BankServer)) :
    List (Network × TransactionRequest) → List (String × TransactionRecord)
  | [] => []
  | (net, req) :: rest =>
    (if (s.ProcessPayment net banks req).resp = committedResponse then
      [(req.IdempotencyKey, committedRecord net req)]
    else []) ++
    PaymentGatewayServer.serveLog (s.ProcessPayment net banks req).gateway
      (s.ProcessPayment net banks req).banks rest

/-- The ledger and the history agree with a log of committed calls: the
history holds the log's records in order, every key of the log is marked
committed, and every key marked committed occurs exactly once in the log. -/
def PaymentGatewayServer.agreesWith (s : PaymentGatewayServer)
    (log : List (String × TransactionRecord)) : Prop :=
  s.history = log.map (fun p => p.2) ∧
  (∀ p ∈ log, Load p.1 s.processedTxs = some true) ∧
  (∀ k, Load k s.processedTxs = some true → (log.map (fun p => p.1)).count k = 1)

/-! ## Gateway accounts and history (`gateway/accounts.go`, `gateway/history.go`) -/

/-- Message `RegisterRequest`. -/
structure RegisterRequest where
  Username : String
  Password : String
  BankName : String
deriving DecidableEq, Repr

/-- Message `RegisterResponse`. -/
structure RegisterResponse where
  Success : Bool
  Message : String
deriving DecidableEq, Repr

/-- Message `UnregisterRequest`. -/
structure UnregisterRequest where
  Username : String
deriving DecidableEq, Repr

/-- Message `UnregisterResponse`. -/
structure UnregisterResponse where
  Success : Bool
  Message : String
deriving DecidableEq, Repr

/-- Message `BalanceRequest`. -/
structure BalanceRequest where
  Username : String
deriving DecidableEq, Repr

/-- Message `HistoryRequest`. -/
structure HistoryRequest where
  Username : String
deriving DecidableEq, Repr

/-- Message `TransactionRecord` of the wire schema (`paymentpb.TransactionRecord`). -/
structure paymentpb.TransactionRecord where
  TransactionId : String
  Sender : String
  Receiver : String
  Amount : Int
  Timestamp : String
  Message : String
deriving DecidableEq, Repr

/-- Message `HistoryResponse`. -/
structure HistoryResponse where
  Records : List paymentpb.TransactionRecord
deriving DecidableEq, Repr

/-- Incoming context of an RPC: the request metadata, when there is one
(`metadata.FromIncomingContext`), as a map from key to values. -/
structure Context where
  metadata : Option (List (String × List String))
deriving DecidableEq, Repr

/-- Index of a metadata map, `md[key]`: the values of the key, none when absent. -/
def mdGet (md : List (String × List String)) (key : String) : List String :=
  match Load key md with
  | some vs => vs
  | none => []

/-- Method `PaymentGatewayServer.Register`. -/
def PaymentGatewayServer.Register (s : PaymentGatewayServer) (req : RegisterRequest) :
    Except Status RegisterResponse × PaymentGatewayServer :=
  (.ok { Success := true, Message := "User registered successfully" },
    { s with users := Store req.Username ⟨req.Password, req.BankName⟩ s.users })

/-- Method `PaymentGatewayServer.Unregister`. -/
def PaymentGatewayServer.Unregister (s : PaymentGatewayServer) (req : UnregisterRequest) :
    Except Status UnregisterResponse × PaymentGatewayServer :=
  match Load req.Username s.users with
  | none => (.ok { Success := false, Message := "User not registered" }, s)
  | some _ =>
    (.ok { Success := true, Message := "User unregistered successfully" },
      { s with users := Delete req.Username s.users })

/-- Conversion of a stored record to its wire message, field by field. -/
def toProto (r : TransactionRecord) : paymentpb.TransactionRecord :=
  { TransactionId := r.TransactionId
    Sender := r.Sender
    Receiver := r.Receiver
    Amount := r.Amount
    Timestamp := r.Timestamp
    Message := r.Message }

/-- Method `PaymentGatewayServer.GetTransactionHistory`; the two loops append to
`filtered` and to `recordsProto`. -/
def PaymentGatewayServer.GetTransactionHistory (s : PaymentGatewayServer) (ctx : Context)
    (req : HistoryRequest) : Except Status HistoryResponse × PaymentGatewayServer :=
  match ctx.metadata with
  | none => (.error ⟨16, "missing metadata"⟩, s)
  | some md =>
    match mdGet md "username" with
    | [] => (.error ⟨7, "unauthorized access"⟩, s)
    | u :: _ =>
      if u ≠ req.Username then
        (.error ⟨7, "unauthorized access"⟩, s)
      else
        let records := s.history
        let filtered := records.foldl
          (fun filtered rec =>
            if rec.Sender = req.Username || rec.Receiver = req.Username then filtered ++ [rec]
            else filtered) []
        let recordsProto := filtered.foldl
          (fun recordsProto rec => recordsProto ++ [toProto rec]) []
        (.ok { Records := recordsProto }, s)

/-! ## Interceptors (`gateway/auth.go`) -/

/-- The request of an RPC, `req interface{}`, by its message type. -/
inductive Request where
  | Register (r : RegisterRequest)
  | Unregister (r : UnregisterRequest)
  | ProcessPayment (r : TransactionRequest)
  | GetBalance (r : BalanceRequest)
  | GetTransactionHistory (r : HistoryRequest)
deriving DecidableEq, Repr

/-- The `grpc.UnaryServerInfo` of an RPC: its full method name. -/
structure UnaryServerInfo where
  FullMethod : String
deriving DecidableEq, Repr

/-- What a handler can read and change: the gateway behind the global
`gatewayInstance`, and the banks. -/
structure World where
  gatewayInstance : PaymentGatewayServer
  banks : List (String × BankServer)
deriving DecidableEq, Repr

/-- A `grpc.UnaryHandler`: it returns `(resp, err)` and the world it leaves. -/
abbrev UnaryHandler (β : Type) : Type :=
  Context → Request → World → Except Status β × World

/-- Interceptor `authInterceptor`. -/
def authInterceptor {β : Type} (ctx : Context) (req : Request) (info : UnaryServerInfo)
    (handler : UnaryHandler β) (w : World) : Except Status β × World :=
  if info.FullMethod = "/payment.PaymentGateway/Register" then
    handler ctx req w
  else
    match ctx.metadata with
    | none => (.error ⟨16, "missing metadata"⟩, w)
    | some md =>
      match mdGet md "username", mdGet md "password" with
      | [], _ => (.error ⟨16, "missing credentials"⟩, w)
      | _ :: _, [] => (.error ⟨16, "missing credentials"⟩, w)
      | username :: _, providedPwd :: _ =>
        match Load username w.gatewayInstance.users with
        | none => (.error ⟨16, "user not registered"⟩, w)
        | some regUser =>
          if providedPwd ≠ regUser.password then
            (.error ⟨7, "invalid credentials"⟩, w)
          else
            handler ctx req w

/-- Interceptor `authorizationInterceptor`. -/
def authorizationInterceptor {β : Type} (ctx : Context) (req : Request)
    (info : UnaryServerInfo) (handler : UnaryHandler β) (w : World) :
    Except Status β × World :=
  if info.FullMethod = "/payment.PaymentGateway/GetBalance" ∨
      info.FullMethod = "/payment.PaymentGateway/GetTransactionHistory" then
    match ctx.metadata with
    | none => (.error ⟨16, "missing metadata"⟩, w)
    | some md =>
      match mdGet md "username" with
      | [] => (.error ⟨16, "missing username"⟩, w)
      | authenticatedUser :: _ =>
        match req with
        | .GetBalance r =>
          if r.Username ≠ authenticatedUser then
            (.error ⟨7, "unauthorized: " ++ authenticatedUser ++ " cannot view balance for " ++
              r.Username⟩, w)
          else handler ctx req w
        | .GetTransactionHistory r =>
          if r.Username ≠ authenticatedUser then
            (.error ⟨7, "unauthorized: " ++ authenticatedUser ++
              " cannot view transaction history for " ++ r.Username⟩, w)
          else handler ctx req w
        | _ => (.error ⟨13, "invalid request type"⟩, w)
  else
    handler ctx req w

/-- Interceptor `loggingInterceptor`: it logs and returns what the handler returns. -/
def loggingInterceptor {β : Type} (ctx : Context) (req : Request) (_info : UnaryServerInfo)
    (handler : UnaryHandler β) (w : World) : Except Status β × World :=
  handler ctx req w

/-- The chain installed by `createGRPCServer`: `authInterceptor`, then
`authorizationInterceptor`, then `loggingInterceptor`, then the handler. -/
def createGRPCServer {β : Type} (ctx : Context) (req : Request) (info : UnaryServerInfo)
    (handler : UnaryHandler β) (w : World) : Except Status β × World :=
  authInterceptor ctx req info
    (fun ctx req => authorizationInterceptor ctx req info
      (fun ctx req => loggingInterceptor ctx req info handler)) w

/-- The handler of the `Register` method as the service registers it: it
passes the decoded request to `PaymentGatewayServer.Register`. The last arm
stands for a request of another type, which the service never passes. -/
def registerHandler : UnaryHandler RegisterResponse
  | _, .Register r, w =>
    ((w.gatewayInstance.Register r).1,
      { w with gatewayInstance := (w.gatewayInstance.Register r).2 })
  | _, _, w => (.error ⟨13, "invalid request type"⟩, w)

/-- The handler of the `Unregister` method as the service registers it: it
passes the decoded request to `PaymentGatewayServer.Unregister`. The last arm
stands for a request of another type, which the service never passes. -/
def unregisterHandler : UnaryHandler UnregisterResponse
  | _, .Unregister r, w =>
    ((w.gatewayInstance.Unregister r).1,
      { w with gatewayInstance := (w.gatewayInstance.Unregister r).2 })
  | _, _, w => (.error ⟨13, "invalid request type"⟩, w)

/-- Metadata carrying one username and one password, as the client attaches
them (`metadata.Pairs("username", u, "password", p)`). -/
def credentials (u p : String) : Context :=
  { metadata := some [("username", [u]), ("password", [p])] }

/-- A network in which `grpc.Dial` fails for the target `down` and every other
dial and every RPC succeeds. -/
def Network.dialFails (now down : String) : Network :=
  { now := now
    dial := fun target => if target = down then some "invalid target" else none
    senderPrepare := .delivered
    receiverPrepare := .delivered
    senderAbort := .delivered
    senderCommit := .delivered
    receiverCommit := .delivered
    abortCancelled := false }

/-! ## The bank participant on `float64` values

The handlers of `server/bankserver.go` once more, with balances and amounts as
Go `float64` values: a NaN, an infinity, or a finite value. -/

namespace IEEE

/-- A Go `float64`: NaN, minus infinity, a finite value, or plus infinity.
A finite value is carried as an exact number, counted in a fixed unit of which
every finite value is a whole multiple (for `float64` the smallest positive
value, 2^-1074; comparisons, sums and differences do not depend on the unit).
Plus and minus zero are one value: they compare equal in Go. -/
inductive Float64 where
  | nan
  | negInf
  | fin (x : Int)
  | posInf
deriving DecidableEq, Repr

/-- Go's `a < b` on `float64`: false when either side is NaN. -/
def Float64.lt : Float64 → Float64 → Bool
  | .nan, _ => false
  | _, .nan => false
  | .negInf, .negInf => false
  | .negInf, _ => true
  | .fin _, .negInf => false
  | .fin x, .fin y => decide (x < y)
  | .fin _, .posInf => true
  | .posInf, _ => false

/-- Go's `a <= b` on `float64`: false when either side is NaN. -/
def Float64.le : Float64 → Float64 → Bool
  | .nan, _ => false
  | _, .nan => false
  | .negInf, _ => true
  | .fin _, .negInf => false
  | .fin x, .fin y => decide (x ≤ y)
  | .fin _, .posInf => true
  | .posInf, .posInf => true
  | .posInf, _ => false

/-- Go's `a >= b` on `float64`. -/
def Float64.ge (a b : Float64) : Bool :=
  Float64.le b a

/-- What the hardware makes of the exact sum or difference of two finite
values: the nearest `float64`, or an infinity on overflow. Only one fact about
it is used: an exact result that is >= 0 is rounded to a value >= 0. -/
structure Rounding where
  round : Int → Float64
  round_nonneg : ∀ x, 0 ≤ x → Float64.le (.fin 0) (round x) = true

/-- The rounding that changes nothing. -/
def Rounding.exact : Rounding :=
  { round := Float64.fin
    round_nonneg := fun x hx => by simp [Float64.le, hx] }

/-- Go's `a - b` on `float64`. -/
def Float64.sub (R : Rounding) : Float64 → Float64 → Float64
  | .nan, _ => .nan
  | _, .nan => .nan
  | .posInf, .posInf => .nan
  | .negInf, .negInf => .nan
  | .posInf, _ => .posInf
  | .negInf, _ => .negInf
  | .fin _, .posInf => .negInf
  | .fin _, .negInf => .posInf
  | .fin x, .fin y => R.round (x - y)

/-- Go's `a + b` on `float64`. -/
def Float64.add (R : Rounding) : Float64 → Float64 → Float64
  | .nan, _ => .nan
  | _, .nan => .nan
  | .posInf, .negInf => .nan
  | .negInf, .posInf => .nan
  | .posInf, _ => .posInf
  | .negInf, _ => .negInf
  | .fin _, .posInf => .posInf
  | .fin _, .negInf => .negInf
  | .fin x, .fin y => R.round (x + y)

/-- The `Account` struct of `server/utils.go`. -/
structure Account where
  Username : String
  Password : String
  Balance : Float64
deriving DecidableEq, Repr

/-- The `BankServer` struct: its account map. -/
structure BankServer where
  accounts : List (String × Account)
deriving DecidableEq, Repr

/-- Message `PrepareRequest`. -/
structure PrepareRequest where
  TransactionId : String
  Account : String
  Amount : Float64
deriving DecidableEq, Repr

/-- Message `CommitRequest`. -/
structure CommitRequest where
  TransactionId : String
  Account : String
  Amount : Float64
  IsSender : Bool
deriving DecidableEq, Repr

/-- Handler `BankServer.PreparePayment`: the response and the state left behind. -/
def BankServer.PreparePayment (s : BankServer) (req : PrepareRequest) :
    Except String PrepareResponse × BankServer :=
  match Load req.Account s.accounts with
  | none => (.ok { Vote := false, Message := "Account not found" }, s)
  | some acc =>
    if acc.Balance.lt req.Amount then
      (.ok { Vote := false, Message := "Insufficient funds" }, s)
    else
      (.ok { Vote := true, Message := "Prepared successfully" }, s)

/-- Handler `BankServer.CommitPayment`: the response and the state left behind. -/
def BankServer.CommitPayment (R : Rounding) (s : BankServer) (req : CommitRequest) :
    Except String CommitResponse × BankServer :=
  match Load req.Account s.accounts with
  | none => (.ok { Success := false, Message := "Account not found" }, s)
  | some acc =>
    if req.IsSender then
      if acc.Balance.lt req.Amount then
        (.ok { Success := false, Message := "Insufficient funds on commit" }, s)
      else
        (.ok { Success := true, Message := "Commit successful" },
          { s with accounts :=
              Store req.Account { acc with Balance := acc.Balance.sub R req.Amount } s.accounts })
    else
      (.ok { Success := true, Message := "Commit successful" },
        { s with accounts :=
            Store req.Account { acc with Balance := acc.Balance.add R req.Amount } s.accounts })

/-- Balance of an account of a bank, when the account exists. -/
def BankServer.balance (s : BankServer) (u : String) : Option Float64 :=
  (Load u s.accounts).map (fun acc => acc.Balance)

/-- Every balance of the bank is >= 0 (so none is NaN). -/
def BankServer.nonneg (s : BankServer) : Prop :=
  ∀ p ∈ s.accounts, Float64.le (.fin 0) p.2.Balance = true

instance BankServer.decidableNonneg (s : BankServer) : Decidable s.nonneg :=
  List.decidableBAll _ _

end IEEE

/-! ## Client offline queue (`client/commands.go`)

Amounts are `float64` values. A file is carried as the JSON document it holds.
The library calls `json.MarshalIndent` and `json.Unmarshal` are not code of
this program: they are modelled below on documents of the shape of the queue
file (`null`, or an array of objects); what the library makes of any other
content is carried with that content. -/

namespace IEEE

/-- Message `TransactionRequest`, with its amount as a `float64`. -/
structure TransactionRequest where
  TransactionId : String
  SenderUsername : String
  ReceiverUsername : String
  Amount : Float64
  SenderBank : String
  ReceiverBank : String
  IdempotencyKey : String
deriving DecidableEq, Repr

/-- The `PaymentTransaction` struct: a wrapper of a `TransactionRequest`. -/
structure PaymentTransaction where
  req : TransactionRequest
deriving DecidableEq, Repr

/-- The `OfflineTransaction` struct, persisted under the JSON names of its tags. -/
structure OfflineTransaction where
  TransactionId : String
  SenderUsername : String
  ReceiverUsername : String
  Amount : Float64
  SenderBank : String
  ReceiverBank : String
  IdempotencyKey : String
deriving DecidableEq, Repr

/-- A member value of a JSON object, as far as the decoder tells values apart:
`null`, a string, a number that parses as a finite `float64`, or anything else
(a boolean, an array, an object, a number out of range). -/
inductive JsonValue where
  | null
  | str (s : String)
  | num (x : Int)
  | other
deriving DecidableEq, Repr

/-- Content of a file: JSON `null`, a JSON array of objects, or any other
content, carried with what `json.Unmarshal` into a slice of
`OfflineTransaction` makes of it. -/
inductive FileData where
  | null
  | array (objects : List (List (String × JsonValue)))
  | other (decoded : Except String (List OfflineTransaction))
deriving DecidableEq, Repr

/-- The value is finite: neither NaN nor an infinity. -/
def Float64.isFinite : Float64 → Bool
  | .fin _ => true
  | _ => false

/-- JSON object written for one `OfflineTransaction`, one member per field,
named by the field's `json` tag; a value that is not finite cannot be written
("json: unsupported value"). -/
def OfflineTransaction.toJson (t : OfflineTransaction) :
    Except String (List (String × JsonValue)) :=
  match t.Amount with
  | .fin x =>
    .ok [("transactionId", .str t.TransactionId),
         ("senderUsername", .str t.SenderUsername),
         ("receiverUsername", .str t.ReceiverUsername),
         ("amount", .num x),
         ("senderBank", .str t.SenderBank),
         ("receiverBank", .str t.ReceiverBank),
         ("idempotencyKey", .str t.IdempotencyKey)]
  | _ => .error "json: unsupported value"

/-- The objects written for a slice, in order; the first error ends the writing. -/
def jsonArray : List OfflineTransaction → Except String (List (List (String × JsonValue)))
  | [] => .ok []
  | t :: ts =>
    match t.toJson with
    | .error e => .error e
    | .ok o =>
      match jsonArray ts with
      | .error e => .error e
      | .ok os => .ok (o :: os)

/-- Model of the library call `json.MarshalIndent(offlineList, "", "  ")`: a
nil slice is written as `null`, any other as an array. -/
def jsonMarshalIndent : List OfflineTransaction → Except String FileData
  | [] => .ok .null
  | t :: ts =>
    match jsonArray (t :: ts) with
    | .error e => .error e
    | .ok os => .ok (.array os)

/-- Case folding of one character of a member name: ASCII letters to lower
case, and the two other characters that fold to an ASCII letter. -/
def foldChar (c : Char) : Char :=
  if c = Char.ofNat 0x17F then 's'
  else if c = Char.ofNat 0x212A then 'k'
  else c.toLower

/-- A member name matches a field's tag when they are equal up to case. -/
def nameMatches (name tag : String) : Bool :=
  name.data.map foldChar == tag.data.map foldChar

/-- The values of the members of an object that match a tag, in order. -/
def members (o : List (String × JsonValue)) (tag : String) : List JsonValue :=
  (o.filter (fun p => nameMatches p.1 tag)).map (fun p => p.2)

/-- A string field read from a JSON object: every matching member is
decoded in order, a later one overwriting an earlier one; `null` changes
nothing; a member of another type is an error, which the call then returns. -/
def jsonString (o : List (String × JsonValue)) (tag : String) : Except String String :=
  (members o tag).foldl
    (fun field v =>
      match field, v with
      | .error e, _ => .error e
      | .ok s, .null => .ok s
      | .ok _, .str s => .ok s
      | .ok _, _ => .error "json: cannot unmarshal into Go struct field of type string")
    (.ok "")

/-- A `float64` field read from a JSON object. -/
def jsonNumber (o : List (String × JsonValue)) (tag : String) : Except String Float64 :=
  (members o tag).foldl
    (fun field v =>
      match field, v with
      | .error e, _ => .error e
      | .ok x, .null => .ok x
      | .ok _, .num x => .ok (.fin x)
      | .ok _, _ => .error "json: cannot unmarshal into Go struct field of type float64")
    (.ok (.fin 0))

/-- One JSON object read into an `OfflineTransaction`. -/
def OfflineTransaction.fromJson (o : List (String × JsonValue)) :
    Except String OfflineTransaction :=
  match jsonString o "transactionId", jsonString o "senderUsername",
    jsonString o "receiverUsername", jsonNumber o "amount", jsonString o "senderBank",
    jsonString o "receiverBank", jsonString o "idempotencyKey" with
  | .ok a, .ok b, .ok c, .ok d, .ok e, .ok f, .ok g => .ok ⟨a, b, c, d, e, f, g⟩
  | _, _, _, _, _, _, _ => .error "json: cannot unmarshal object"

/-- The objects of a JSON array read in order; an error makes the call fail. -/
def jsonObjects : List (List (String × JsonValue)) → Except String (List OfflineTransaction)
  | [] => .ok []
  | o :: os =>
    match OfflineTransaction.fromJson o with
    | .error e => .error e
    | .ok t =>
      match jsonObjects os with
      | .error e => .error e
      | .ok ts => .ok (t :: ts)

/-- Model of the library call `json.Unmarshal(data, &offlineList)`. -/
def jsonUnmarshal : FileData → Except String (List OfflineTransaction)
  | .null => .ok []
  | .array objects => jsonObjects objects
  | .other decoded => decoded

/-- Outcome of `ioutil.WriteFile`: the file holds the data, or the call failed
and the file is left with some content, or absent. -/
inductive WriteOutcome where
  | written
  | failed (left : Option FileData)
deriving DecidableEq, Repr

/-- Function `saveOfflineQueue`: the files after the call. -/
def saveOfflineQueue (offlineQueue : List PaymentTransaction) (write : WriteOutcome)
    (files : List (String × FileData)) : List (String × FileData) :=
  let offlineList : List OfflineTransaction := offlineQueue.foldl
    (fun offlineList tx => offlineList ++
      [{ TransactionId := tx.req.TransactionId
         SenderUsername := tx.req.SenderUsername
         ReceiverUsername := tx.req.ReceiverUsername
         Amount := tx.req.Amount
         SenderBank := tx.req.SenderBank
         ReceiverBank := tx.req.ReceiverBank
         IdempotencyKey := tx.req.IdempotencyKey }]) []
  match jsonMarshalIndent offlineList with
  | .error _ => files
  | .ok data =>
    match write with
    | .written => Store "pending_transactions.json" data files
    | .failed (some left) => Store "pending_transactions.json" left files
    | .failed none => Delete "pending_transactions.json" files

/-- Function `loadOfflineQueue`: the queue after the call. -/
def loadOfflineQueue (filename : String) (offlineQueue : List PaymentTransaction)
    (files : List (String × FileData)) : List PaymentTransaction :=
  match Load filename files with
  | none => offlineQueue
  | some data =>
    match jsonUnmarshal data with
    | .error _ => offlineQueue
    | .ok offlineList =>
      offlineList.foldl
        (fun offlineQueue offTx => offlineQueue ++
          [{ req :=
              { TransactionId := offTx.TransactionId
                SenderUsername := offTx.SenderUsername
                ReceiverUsername := offTx.ReceiverUsername
                Amount := offTx.Amount
                SenderBank := offTx.SenderBank
                ReceiverBank := offTx.ReceiverBank
                IdempotencyKey := offTx.IdempotencyKey } }]) []

end IEEE

/-! ## The coordinator over any banks (`gateway/transaction.go`)

`ProcessPayment` once more, as the gateway's code stands: it knows a bank only
through the client connection that `grpc.Dial` returns, so the replies of the
banks are whatever those connections give, and the writing of the history file
may fail. The coordinator never computes with the amount of a request: it
passes it on to the banks and into the history record. -/

namespace Coordinator

/-- A connection to a bank (`paymentpb.BankServiceClient`) acting on a world
`σ`: each RPC returns `(resp, err)` and the world it leaves. -/
structure BankServiceClient (σ : Type) where
  PreparePayment : PrepareRequest → σ → Except String PrepareResponse × σ
  CommitPayment : CommitRequest → σ → Except String CommitResponse × σ
  AbortPayment : AbortRequest → σ → Except String AbortResponse × σ

/-- What becomes of the history file in `storeTransactionRecord`: its records
are read, and the file is written with them and the new record; or the file is
there but `ioutil.ReadFile` or `json.Unmarshal` fails, with `kept` the records
read until then, and the file is written with those and the new record; or
`json.MarshalIndent` fails and nothing is written; or `ioutil.WriteFile` fails
and leaves a file that reads as the records `left`. -/
inductive HistoryWrite where
  | written
  | readFailed (kept : List TransactionRecord)
  | marshalFailed
  | writeFailed (left : List TransactionRecord)
deriving DecidableEq, Repr

/-- What lies outside the gateway during one `ProcessPayment`: the clock, the
result of the n-th `grpc.Dial` of the call for a target (0 for the sender's
bank, 1 for the receiver's), and what becomes of the history file. -/
structure Env (σ : Type) where
  now : String
  Dial : Nat → String → Except String (BankServiceClient σ)
  historyFile : HistoryWrite

/-- Method `storeTransactionRecord`, with its dropped read error and its two
error returns. -/
def storeTransactionRecord (s : PaymentGatewayServer) (file : HistoryWrite)
    (record : TransactionRecord) : PaymentGatewayServer :=
  match file with
  | .written => { s with history := s.history ++ [record] }
  | .readFailed kept => { s with history := kept ++ [record] }
  | .marshalFailed => s
  | .writeFailed left => { s with history := left }

/-- Result of one `ProcessPayment`: the `(resp, err)` returned, the gateway and
the world afterwards. -/
structure Outcome (σ : Type) where
  resp : Except Status TransactionResponse
  gateway : PaymentGatewayServer
  world : σ

/-- Method `PaymentGatewayServer.ProcessPayment`. -/
def ProcessPayment {σ : Type} (s : PaymentGatewayServer) (env : Env σ)
    (req : TransactionRequest) (w : σ) : Outcome σ :=
  if (Load req.SenderUsername s.users).isNone || (Load req.ReceiverUsername s.users).isNone then
    ⟨.error ⟨codes.FailedPrecondition, "One or both users are not registered"⟩, s, w⟩
  else if req.IdempotencyKey = "" then
    ⟨.error ⟨codes.InvalidArgument, "IdempotencyKey must be provided"⟩, s, w⟩
  else
  match Load req.IdempotencyKey s.processedTxs with
  | some result =>
    ⟨.ok ⟨true, "Transaction already processed: " ++ toString result⟩, s, w⟩
  | none =>
  let s : PaymentGatewayServer :=
    { s with processedTxs := Store req.IdempotencyKey false s.processedTxs }
  match env.Dial 0 req.SenderBank with
  | .error err =>
    ⟨.error ⟨codes.FailedPrecondition, "Error connecting to sender bank: " ++ err⟩, s, w⟩
  | .ok senderClient =>
  match env.Dial 1 req.ReceiverBank with
  | .error err =>
    ⟨.error ⟨codes.FailedPrecondition, "Error connecting to receiver bank: " ++ err⟩, s, w⟩
  | .ok receiverClient =>
  let aborted : PaymentGatewayServer :=
    { s with processedTxs := Store req.IdempotencyKey false s.processedTxs }
  -- Phase 1: Prepare on sender.
  let senderPrep := senderClient.PreparePayment
    ⟨req.TransactionId, req.SenderUsername, req.Amount⟩ w
  if !voted senderPrep.1 then
    ⟨.error ⟨codes.Aborted, "Sender bank aborted the transaction"⟩, aborted, senderPrep.2⟩
  else
  -- Phase 1: Prepare on receiver.
  let receiverPrep := receiverClient.PreparePayment
    ⟨req.TransactionId, req.ReceiverUsername, req.Amount⟩ senderPrep.2
  if !voted receiverPrep.1 then
    -- Abort on sender side; its result is dropped.
    let senderAbort := senderClient.AbortPayment ⟨req.TransactionId⟩ receiverPrep.2
    ⟨.error ⟨codes.Aborted, "Receiver bank aborted the transaction"⟩, aborted, senderAbort.2⟩
  else
  -- Phase 2: Commit on sender.
  let senderCommit := senderClient.CommitPayment
    ⟨req.TransactionId, req.SenderUsername, req.Amount, true⟩ receiverPrep.2
  if !succeeded senderCommit.1 then
    ⟨.error ⟨codes.Aborted, "Sender bank commit failed"⟩, aborted, senderCommit.2⟩
  else
  -- Phase 2: Commit on receiver.
  let receiverCommit := receiverClient.CommitPayment
    ⟨req.TransactionId, req.ReceiverUsername, req.Amount, false⟩ senderCommit.2
  if !succeeded receiverCommit.1 then
    ⟨.error ⟨codes.Aborted, "Receiver bank commit failed"⟩, aborted, receiverCommit.2⟩
  else
  let committed : PaymentGatewayServer :=
    { s with processedTxs := Store req.IdempotencyKey true s.processedTxs }
  let record : TransactionRecord :=
    { TransactionId := req.TransactionId
      Sender := req.SenderUsername
      Receiver := req.ReceiverUsername
      Amount := req.Amount
      Timestamp := env.now
      Message := "Transaction committed successfully" }
  ⟨.ok ⟨true, "Transaction committed successfully"⟩,
    storeTransactionRecord committed env.historyFile record, receiverCommit.2⟩

/-! ### Recording the bank calls -/

/-- A world together with the record of the bank calls made in it. -/
structure Logged (σ : Type) where
  log : List BankCall
  world : σ

/-- The connection `c` to `target`, recording each call when it is made: the
target, the request, and whether the reply came without error with a true vote
or success. -/
def BankServiceClient.logged {σ : Type} (target : String) (c : BankServiceClient σ) :
    BankServiceClient (Logged σ) :=
  { PreparePayment := fun req w =>
      ((c.PreparePayment req w.world).1,
        { log := w.log ++
            [BankCall.PreparePayment target req (voted (c.PreparePayment req w.world).1)]
          world := (c.PreparePayment req w.world).2 })
    CommitPayment := fun req w =>
      ((c.CommitPayment req w.world).1,
        { log := w.log ++
            [BankCall.CommitPayment target req (succeeded (c.CommitPayment req w.world).1)]
          world := (c.CommitPayment req w.world).2 })
    AbortPayment := fun req w =>
      ((c.AbortPayment req w.world).1,
        { log := w.log ++ [BankCall.AbortPayment target req]
          world := (c.AbortPayment req w.world).2 }) }

/-- The environment `env` with every connection recording its calls. -/
def Env.logged {σ : Type} (env : Env σ) : Env (Logged σ) :=
  { now := env.now
    Dial := fun n target =>
      match env.Dial n target with
      | .error err => .error err
      | .ok c => .ok (c.logged target)
    historyFile := env.historyFile }

/-! ### Banks, a network and other clients -/

/-- What happens around one RPC: the `CommitPayment` calls of other clients
that the banks serve before it arrives, the fate of the RPC itself, and, for
`AbortPayment`, which arm of the bank's `select` fires. -/
structure Step where
  others : List (String × CommitRequest)
  link : Link
  cancelled : Bool
deriving DecidableEq, Repr

/-- The banks, what is still to happen around the coming RPCs (one `Step` per
RPC, in order; past the end every RPC is delivered and nothing interleaves),
and two records kept beside them: the `CommitPayment` calls of this gateway
that a bank applied, and the banks as the other clients alone would have left
them. -/
structure Wire where
  banks : List (String × BankServer)
  schedule : List Step
  applied : List (String × CommitRequest)
  alone : List (String × BankServer)
deriving DecidableEq, Repr

/-- The banks after they served the `CommitPayment` calls of other clients. -/
def interleave (others : List (String × CommitRequest))
    (banks : List (String × BankServer)) : List (String × BankServer) :=
  others.foldl (fun banks p => (rpc Link.delivered banks p.1 (fun b => b.CommitPayment p.2)).2)
    banks

/-- The step of the coming RPC. -/
def Wire.step (w : Wire) : Step :=
  match w.schedule with
  | [] => { others := [], link := .delivered, cancelled := false }
  | st :: _ => st

/-- The world when the coming RPC arrives: the other clients' calls served. -/
def Wire.arrive (w : Wire) : Wire :=
  { banks := interleave w.step.others w.banks
    schedule := w.schedule.tail
    applied := w.applied
    alone := interleave w.step.others w.alone }

/-- A `CommitPayment` sent over `link` to `target` is applied by the bank: the
request arrives and the handler answers success. -/
def commitApplied (link : Link) (banks : List (String × BankServer)) (target : String)
    (req : CommitRequest) : Bool :=
  match link, Load target banks with
  | .requestLost, _ => false
  | _, none => false
  | _, some b => succeeded (b.CommitPayment req).1

/-- The connection to the bank listening at `target`, over the wire. -/
def wireClient (target : String) : BankServiceClient Wire :=
  { PreparePayment := fun req w =>
      ((rpc w.step.link w.arrive.banks target (fun b => b.PreparePayment req)).1,
        { w.arrive with
          banks := (rpc w.step.link w.arrive.banks target (fun b => b.PreparePayment req)).2 })
    CommitPayment := fun req w =>
      ((rpc w.step.link w.arrive.banks target (fun b => b.CommitPayment req)).1,
        { w.arrive with
          banks := (rpc w.step.link w.arrive.banks target (fun b => b.CommitPayment req)).2
          applied :=
            if commitApplied w.step.link w.arrive.banks target req then
              w.applied ++ [(target, req)]
            else w.applied })
    AbortPayment := fun req w =>
      ((rpc w.step.link w.arrive.banks target
          (fun b => b.AbortPayment w.step.cancelled req)).1,
        { w.arrive with
          banks := (rpc w.step.link w.arrive.banks target
            (fun b => b.AbortPayment w.step.cancelled req)).2 }) }

/-- The environment of the wire: every dial succeeds and the history file is
written. -/
def wireEnv (now : String) : Env Wire :=
  { now := now
    Dial := fun _ target => .ok (wireClient target)
    historyFile := .written }

/-- A wire at rest: the banks, a schedule, and nothing applied yet. -/
def Wire.start (banks : List (String × BankServer)) (schedule : List Step) : Wire :=
  { banks := banks, schedule := schedule, applied := [], alone := banks }

/-- The run ended aborted: an error whose code is `codes.Aborted`. -/
def Outcome.aborted {σ : Type} (r : Outcome σ) : Prop :=
  ∃ msg, r.resp = .error ⟨codes.Aborted, msg⟩

/-- A schedule in which another client debits alice 80 at BankA between the
votes and the sender's Commit: two quiet delivered calls, then the other
client's `CommitPayment` served before the third call arrives. -/
def scheduleDrained : List Step :=
  [{ others := [], link := .delivered, cancelled := false },
   { others := [], link := .delivered, cancelled := false },
   { others := [("BankA:50052", ⟨"1700000000000000007", "alice", 80, true⟩)],
     link := .delivered, cancelled := false }]

/-- No step of the schedule has calls of other clients. -/
def Wire.quiet (w : Wire) : Prop :=
  ∀ st ∈ w.schedule, st.others = []

/-- The wire `w`, reached from `w0`, shows no trace of this gateway: the banks
are as the other clients alone would have left them, none of its Commits was
applied, and when `w0` was quiet the banks are those of `w0`. -/
def Wire.untouched (w0 w : Wire) : Prop :=
  w.banks = w.alone ∧ w.applied = w0.applied ∧ (w0.quiet → w.banks = w0.banks ∧ w.quiet)

/-- A connection to the bank at `target` whose three RPCs have the given fates. -/
def linkClient (prepare abort commit : Link) (cancelled : Bool) (target : String) :
    BankServiceClient (List (String × BankServer)) :=
  { PreparePayment := fun req banks => rpc prepare banks target (fun b => b.PreparePayment req)
    CommitPayment := fun req banks => rpc commit banks target (fun b => b.CommitPayment req)
    AbortPayment := fun req banks =>
      rpc abort banks target (fun b => b.AbortPayment cancelled req) }

/-- The environment that a `Network` describes: its dial results, its link
fates on the sender's and on the receiver's connection, no other client at the
banks, and a history file that is written. -/
def ofNetwork (net : Network) : Env (List (String × BankServer)) :=
  { now := net.now
    Dial := fun n target =>
      match net.dial target with
      | some err => .error err
      | none =>
        .ok (if n = 0 then
            linkClient net.senderPrepare net.senderAbort net.senderCommit net.abortCancelled
              target
          else
            linkClient net.receiverPrepare net.senderAbort net.receiverCommit
              net.abortCancelled target)
    historyFile := .written }

end Coordinator

end PaymentGateway

/-! ## Facts about maps -/

namespace PaymentGateway

theorem Load_Store_self {α : Type} (k : String) (v : α) (m : List (String × α)) :
    Load k (Store k v m) = some v := by
  induction m with
  | nil => simp [Store, Load]
  | cons p m ih =>
    obtain ⟨k', v'⟩ := p
    by_cases h : k' = k
    · simp [Store, Load, h]
    · simp [Store, Load, h, ih]

theorem Load_Store_of_ne {α : Type} {k k' : String} (h : k' ≠ k) (v : α)
    (m : List (String × α)) : Load k' (Store k v m) = Load k' m := by
  induction m with
  | nil => simp [Store, Load, Ne.symm h]
  | cons p m ih =>
    obtain ⟨k₁, v₁⟩ := p
    by_cases h₁ : k₁ = k
    · subst h₁
      simp [Store, Load, Ne.symm h]
    · by_cases h₂ : k₁ = k'
      · subst h₂
        simp [Store, Load, h₁]
      · simp [Store, Load, h₁, h₂, ih]

theorem Store_eq_self {α : Type} {k : String} {v : α} {m : List (String × α)}
    (h : Load k m = some v) : Store k v m = m := by
  induction m with
  | nil => simp [Load] at h
  | cons p m ih =>
    obtain ⟨k₁, v₁⟩ := p
    by_cases h₁ : k₁ = k
    · simp [Load, h₁] at h
      simp [Store, h₁, h]
    · simp [Load, h₁] at h
      simp [Store, h₁, ih h]

theorem mem_Store {α : Type} {k : String} {v : α} {m : List (String × α)} {p : String × α}
    (hp : p ∈ Store k v m) : p = (k, v) ∨ p ∈ m := by
  induction m with
  | nil => simpa [Store] using hp
  | cons q m ih =>
    obtain ⟨k₁, v₁⟩ := q
    by_cases h₁ : k₁ = k
    · simp [Store, h₁] at hp
      rcases hp with hp | hp
      · exact Or.inl hp
      · exact Or.inr (List.mem_cons_of_mem _ hp)
    · simp [Store, h₁] at hp
      rcases hp with hp | hp
      · exact Or.inr (by simp [hp])
      · rcases ih hp with h | h
        · exact Or.inl h
        · exact Or.inr (List.mem_cons_of_mem _ h)

theorem mem_of_Load {α : Type} {k : String} {v : α} {m : List (String × α)}
    (h : Load k m = some v) : (k, v) ∈ m := by
  induction m with
  | nil => simp [Load] at h
  | cons q m ih =>
    obtain ⟨k₁, v₁⟩ := q
    by_cases h₁ : k₁ = k
    · simp [Load, h₁] at h
      simp [h₁, h]
    · simp [Load, h₁] at h
      exact List.mem_cons_of_mem _ (ih h)

theorem sum_Store {α : Type} (g : α → Int) {k : String} {v : α} (w : α)
    {m : List (String × α)} (h : Load k m = some v) :
    ((Store k w m).map (fun p => g p.2)).sum = (m.map (fun p => g p.2)).sum - g v + g w := by
  induction m with
  | nil => simp [Load] at h
  | cons q m ih =>
    obtain ⟨k₁, v₁⟩ := q
    by_cases h₁ : k₁ = k
    · simp [Load, h₁] at h
      simp [Store, h₁, h]
      ring
    · simp [Load, h₁] at h
      simp [Store, h₁, ih h]
      ring

/-! ## Bank participant -/

theorem PreparePayment_vote_spec (s : BankServer) (req : PrepareRequest) :
    ∃ r, (s.PreparePayment req).1 = .ok r ∧
      (r.Vote = true ↔ ∃ acc, Load req.Account s.accounts = some acc ∧
        req.Amount ≤ acc.Balance) := by
  unfold BankServer.PreparePayment
  cases hacc : Load req.Account s.accounts with
  | none => exact ⟨_, rfl, by simp⟩
  | some acc =>
    by_cases hlt : acc.Balance < req.Amount
    · refine ⟨⟨false, "Insufficient funds"⟩, by simp only [hlt, if_true], ?_⟩
      simp only [Bool.false_eq_true, Option.some.injEq, exists_eq_left', false_iff]
      omega
    · refine ⟨⟨true, "Prepared successfully"⟩, by simp only [hlt, if_false], ?_⟩
      simp only [Option.some.injEq, exists_eq_left', true_iff]
      omega

theorem PreparePayment_state (s : BankServer) (p : PrepareRequest) :
    (s.PreparePayment p).2 = s := by
  unfold BankServer.PreparePayment
  split
  · rfl
  · split <;> rfl

theorem AbortPayment_state (s : BankServer) (cancelled : Bool) (a : AbortRequest) :
    (s.AbortPayment cancelled a).2 = s := by
  unfold BankServer.AbortPayment
  split <;> rfl

/-- C7: `PreparePayment` (whatever its vote), `AbortPayment` (whichever arm of
its wait fires) and `GetBalance` return the bank state they were given, so the
account map and every balance are as before; a Prepare reserves nothing: the
same Prepare asked again gets the same answer. -/
theorem bank_reads_leave_state (s : BankServer) (p : PrepareRequest) (a : AbortRequest)
    (cancelled : Bool) (g : GetBalanceRequest) :
    (s.PreparePayment p).2 = s ∧ (s.AbortPayment cancelled a).2 = s ∧ (s.GetBalance g).2 = s ∧
    (s.PreparePayment p).2.PreparePayment p = s.PreparePayment p := by
  refine ⟨PreparePayment_state s p, AbortPayment_state s cancelled a, ?_,
    by rw [PreparePayment_state]⟩
  unfold BankServer.GetBalance
  split <;> rfl

/-! ## Bank RPCs as seen from the gateway -/

theorem rpc_PreparePayment_banks (link : Link) (banks : List (String × BankServer))
    (target : String) (p : PrepareRequest) :
    (rpc link banks target (fun b => b.PreparePayment p)).2 = banks := by
  cases link <;> simp only [rpc]
  all_goals
    cases hb : Load target banks with
    | none => rfl
    | some b =>
      simp only [PreparePayment_state]
      exact Store_eq_self hb

theorem rpc_AbortPayment_banks (link : Link) (banks : List (String × BankServer))
    (target : String) (c : Bool) (a : AbortRequest) :
    (rpc link banks target (fun b => b.AbortPayment c a)).2 = banks := by
  cases link <;> simp only [rpc]
  all_goals
    cases hb : Load target banks with
    | none => rfl
    | some b =>
      simp only [AbortPayment_state]
      exact Store_eq_self hb

theorem voted_rpc {link : Link} {banks : List (String × BankServer)} {target : String}
    {p : PrepareRequest}
    (h : voted (rpc link banks target (fun b => b.PreparePayment p)).1 = true) :
    ∃ b acc, Load target banks = some b ∧ Load p.Account b.accounts = some acc ∧
      p.Amount ≤ acc.Balance := by
  cases link
  case requestLost => simp [rpc, voted] at h
  case replyLost =>
    simp only [rpc] at h
    cases hb : Load target banks <;> simp [hb, voted] at h
  case delivered =>
    simp only [rpc] at h
    cases hb : Load target banks with
    | none => simp [hb, voted] at h
    | some b =>
      simp only [hb] at h
      obtain ⟨r, hr, hv⟩ := PreparePayment_vote_spec b p
      rw [hr] at h
      obtain ⟨acc, hacc, hle⟩ := hv.1 h
      exact ⟨b, acc, rfl, hacc, hle⟩

theorem succeeded_rpc {link : Link} {banks : List (String × BankServer)} {target : String}
    {c : CommitRequest}
    (h : succeeded (rpc link banks target (fun b => b.CommitPayment c)).1 = true) :
    ∃ b acc, Load target banks = some b ∧ Load c.Account b.accounts = some acc ∧
      (c.IsSender = true → c.Amount ≤ acc.Balance) ∧
      (rpc link banks target (fun b => b.CommitPayment c)).2 =
        Store target (credited b c acc) banks := by
  cases link
  case requestLost => simp [rpc, succeeded] at h
  case replyLost =>
    simp only [rpc] at h
    cases hb : Load target banks <;> simp [hb, succeeded] at h
  case delivered =>
    simp only [rpc] at h ⊢
    cases hb : Load target banks with
    | none => simp [hb, succeeded] at h
    | some b =>
      simp only [hb] at h ⊢
      cases hacc : Load c.Account b.accounts with
      | none => simp [BankServer.CommitPayment, hacc, succeeded] at h
      | some acc =>
        refine ⟨b, acc, rfl, hacc, ?_, ?_⟩
        · intro hs
          by_contra hlt
          have hlt' : acc.Balance < c.Amount := by omega
          simp [BankServer.CommitPayment, hacc, hs, hlt', succeeded] at h
        · by_cases hs : c.IsSender = true
          · by_cases hlt : acc.Balance < c.Amount
            · simp [BankServer.CommitPayment, hacc, hs, hlt, succeeded] at h
            · simp [BankServer.CommitPayment, hacc, hs, hlt, credited]
          · simp [BankServer.CommitPayment, hacc, hs, credited]

theorem not_succeeded_rpc {link : Link} {banks : List (String × BankServer)} {target : String}
    {c : CommitRequest} (hl : link ≠ Link.replyLost)
    (h : succeeded (rpc link banks target (fun b => b.CommitPayment c)).1 = false) :
    (rpc link banks target (fun b => b.CommitPayment c)).2 = banks := by
  cases link
  case requestLost => rfl
  case replyLost => exact absurd rfl hl
  case delivered =>
    simp only [rpc] at h ⊢
    cases hb : Load target banks with
    | none => rfl
    | some b =>
      simp only [hb] at h ⊢
      have hst : (b.CommitPayment c).2 = b := by
        cases hacc : Load c.Account b.accounts with
        | none => simp [BankServer.CommitPayment, hacc]
        | some acc =>
          by_cases hs : c.IsSender = true
          · by_cases hlt : acc.Balance < c.Amount
            · simp [BankServer.CommitPayment, hacc, hs, hlt]
            · simp [BankServer.CommitPayment, hacc, hs, hlt, succeeded] at h
          · simp [BankServer.CommitPayment, hacc, hs, succeeded] at h
      rw [hst]
      exact Store_eq_self hb

/-! ## Balances across banks -/

theorem balanceAt_credited_self {banks : List (String × BankServer)} {t : String}
    (b : BankServer) (c : CommitRequest) (acc : Account) :
    balanceAt (Store t (credited b c acc) banks) t c.Account =
      some (if c.IsSender then acc.Balance - c.Amount else acc.Balance + c.Amount) := by
  simp [balanceAt, Load_Store_self, credited, BankServer.balance]

theorem balanceAt_credited_other {banks : List (String × BankServer)} {t t' u' : String}
    {b : BankServer} (c : CommitRequest) (acc : Account) (hb : Load t banks = some b)
    (hne : t' ≠ t ∨ u' ≠ c.Account) :
    balanceAt (Store t (credited b c acc) banks) t' u' = balanceAt banks t' u' := by
  by_cases ht : t' = t
  · subst ht
    have hu : u' ≠ c.Account := hne.resolve_left (fun h => h rfl)
    simp [balanceAt, Load_Store_self, credited, BankServer.balance, hb, Load_Store_of_ne hu]
  · simp [balanceAt, Load_Store_of_ne ht]

theorem totalBalance_credited {banks : List (String × BankServer)} {t : String}
    {b : BankServer} (c : CommitRequest) {acc : Account} (hb : Load t banks = some b)
    (hacc : Load c.Account b.accounts = some acc) :
    totalBalance (Store t (credited b c acc) banks) =
      totalBalance banks + (if c.IsSender then - c.Amount else c.Amount) := by
  unfold totalBalance
  rw [sum_Store (fun x : BankServer => x.total) (credited b c acc) hb]
  have : (credited b c acc).total =
      b.total + (if c.IsSender then - c.Amount else c.Amount) := by
    unfold BankServer.total credited
    simp only
    rw [sum_Store (fun x : Account => x.Balance) _ hacc]
    split <;> ring
  rw [this]
  ring

/-! ## Gateway coordinator -/

theorem replay_ne_committed (result : Bool) :
    "Transaction already processed: " ++ toString result ≠
      "Transaction committed successfully" := by
  cases result <;> decide

theorem ProcessPayment_committed_inv {s : PaymentGatewayServer} {net : Network}
    {banks : List (String × BankServer)} {req : TransactionRequest}
    (h : (s.ProcessPayment net banks req).resp = committedResponse) :
    ∃ bS accS bR accR,
      Load req.SenderBank banks = some bS ∧
      Load req.SenderUsername bS.accounts = some accS ∧
      req.Amount ≤ accS.Balance ∧
      Load req.ReceiverBank
        (Store req.SenderBank
          (credited bS ⟨req.TransactionId, req.SenderUsername, req.Amount, true⟩ accS) banks)
        = some bR ∧
      Load req.ReceiverUsername bR.accounts = some accR ∧
      (s.ProcessPayment net banks req).banks =
        Store req.ReceiverBank
          (credited bR ⟨req.TransactionId, req.ReceiverUsername, req.Amount, false⟩ accR)
          (Store req.SenderBank
            (credited bS ⟨req.TransactionId, req.SenderUsername, req.Amount, true⟩ accS) banks) := by
  by_cases hreg :
      ((Load req.SenderUsername s.users).isNone || (Load req.ReceiverUsername s.users).isNone) = true
  · simp [PaymentGatewayServer.ProcessPayment, hreg, committedResponse] at h
  by_cases hkey : req.IdempotencyKey = ""
  · simp [PaymentGatewayServer.ProcessPayment, hreg, hkey, committedResponse] at h
  cases hl : Load req.IdempotencyKey s.processedTxs with
  | some result =>
    simp only [PaymentGatewayServer.ProcessPayment, hreg, hkey, hl, committedResponse] at h
    simp at h
    exact absurd h (replay_ne_committed result)
  | none =>
  cases hd1 : net.dial req.SenderBank with
  | some e => simp [PaymentGatewayServer.ProcessPayment, hreg, hkey, hl, hd1, committedResponse] at h
  | none =>
  cases hd2 : net.dial req.ReceiverBank with
  | some e =>
    simp [PaymentGatewayServer.ProcessPayment, hreg, hkey, hl, hd1, hd2, committedResponse] at h
  | none =>
  simp only [PaymentGatewayServer.ProcessPayment, hreg, hkey, hl, hd1, hd2,
    rpc_PreparePayment_banks, rpc_AbortPayment_banks] at h ⊢
  simp only [Bool.false_eq_true, if_false] at h ⊢
  by_cases hv1 : voted (rpc net.senderPrepare banks req.SenderBank
      (fun b => b.PreparePayment ⟨req.TransactionId, req.SenderUsername, req.Amount⟩)).1 = true
  swap
  · simp [hv1, committedResponse] at h
  by_cases hv2 : voted (rpc net.receiverPrepare banks req.ReceiverBank
      (fun b => b.PreparePayment ⟨req.TransactionId, req.ReceiverUsername, req.Amount⟩)).1 = true
  swap
  · simp [hv1, hv2, committedResponse] at h
  by_cases hc1 : succeeded (rpc net.senderCommit banks req.SenderBank
      (fun b => b.CommitPayment ⟨req.TransactionId, req.SenderUsername, req.Amount, true⟩)).1
        = true
  swap
  · simp [hv1, hv2, hc1, committedResponse] at h
  by_cases hc2 : succeeded (rpc net.receiverCommit
      (rpc net.senderCommit banks req.SenderBank
        (fun b => b.CommitPayment ⟨req.TransactionId, req.SenderUsername, req.Amount, true⟩)).2
      req.ReceiverBank
      (fun b => b.CommitPayment ⟨req.TransactionId, req.ReceiverUsername, req.Amount, false⟩)).1
        = true
  swap
  · simp [hv1, hv2, hc1, hc2, committedResponse] at h
  simp only [hv1, hv2, hc1, hc2, Bool.not_true, Bool.false_eq_true, if_false]
  obtain ⟨bS, accS, hbS, haccS, hle, hbanks3⟩ := succeeded_rpc hc1
  rw [hbanks3] at hc2 ⊢
  obtain ⟨bR, accR, hbR, haccR, -, hbanks4⟩ := succeeded_rpc hc2
  exact ⟨bS, accS, bR, accR, hbS, haccS, hle rfl, hbR, haccR, hbanks4⟩

/-- C2: when `ProcessPayment` ends committed for amount A between a sender
account S and a distinct receiver account R (another bank, or another user of
the same bank), both accounts exist, S ends at its balance before minus A, R
ends at its balance before plus A, every other account of every bank keeps its
balance, and the sum of all bank balances is unchanged. -/
theorem committed_transfer (s : PaymentGatewayServer) (net : Network)
    (banks : List (String × BankServer)) (req : TransactionRequest)
    (hc : (s.ProcessPayment net banks req).resp = committedResponse)
    (hd : req.SenderBank ≠ req.ReceiverBank ∨ req.SenderUsername ≠ req.ReceiverUsername) :
    ∃ bs br,
      balanceAt banks req.SenderBank req.SenderUsername = some bs ∧
      balanceAt banks req.ReceiverBank req.ReceiverUsername = some br ∧
      balanceAt (s.ProcessPayment net banks req).banks req.SenderBank req.SenderUsername =
        some (bs - req.Amount) ∧
      balanceAt (s.ProcessPayment net banks req).banks req.ReceiverBank req.ReceiverUsername =
        some (br + req.Amount) ∧
      (∀ t u, t ≠ req.SenderBank ∨ u ≠ req.SenderUsername →
        t ≠ req.ReceiverBank ∨ u ≠ req.ReceiverUsername →
        balanceAt (s.ProcessPayment net banks req).banks t u = balanceAt banks t u) ∧
      totalBalance (s.ProcessPayment net banks req).banks = totalBalance banks := by
  obtain ⟨bS, accS, bR, accR, hbS, haccS, -, hbR, haccR, hbanks⟩ :=
    ProcessPayment_committed_inv hc
  rw [hbanks]
  have hRS : req.ReceiverBank ≠ req.SenderBank ∨ req.ReceiverUsername ≠ req.SenderUsername :=
    hd.imp Ne.symm Ne.symm
  have hbr : balanceAt banks req.ReceiverBank req.ReceiverUsername = some accR.Balance := by
    rw [← balanceAt_credited_other
      ⟨req.TransactionId, req.SenderUsername, req.Amount, true⟩ accS hbS hRS]
    simp [balanceAt, hbR, BankServer.balance, haccR]
  refine ⟨accS.Balance, accR.Balance, ?_, hbr, ?_, ?_, ?_, ?_⟩
  · simp [balanceAt, hbS, BankServer.balance, haccS]
  · rw [balanceAt_credited_other
      ⟨req.TransactionId, req.ReceiverUsername, req.Amount, false⟩ accR hbR hd]
    exact balanceAt_credited_self bS
      ⟨req.TransactionId, req.SenderUsername, req.Amount, true⟩ accS
  · exact balanceAt_credited_self bR
      ⟨req.TransactionId, req.ReceiverUsername, req.Amount, false⟩ accR
  · intro t u h1 h2
    rw [balanceAt_credited_other
      ⟨req.TransactionId, req.ReceiverUsername, req.Amount, false⟩ accR hbR h2,
      balanceAt_credited_other
      ⟨req.TransactionId, req.SenderUsername, req.Amount, true⟩ accS hbS h1]
  · rw [totalBalance_credited
      ⟨req.TransactionId, req.ReceiverUsername, req.Amount, false⟩ hbR haccR,
      totalBalance_credited
      ⟨req.TransactionId, req.SenderUsername, req.Amount, true⟩ hbS haccS]
    simp

/-- Witness of `committed_transfer`: alice holds 100 at BankA, bob holds 50
at BankB, alice pays bob 40 over a reliable network. -/
theorem committed_transfer_witness :
    (scenarioGateway.ProcessPayment (Network.reliable "2025-01-01T00:00:00Z")
      (scenarioBanks 100 50) (scenarioRequest 40)).resp = committedResponse ∧
    ∃ bs br,
      balanceAt (scenarioBanks 100 50) "BankA:50052" "alice" = some bs ∧
      balanceAt (scenarioBanks 100 50) "BankB:50053" "bob" = some br ∧
      balanceAt (scenarioGateway.ProcessPayment (Network.reliable "2025-01-01T00:00:00Z")
        (scenarioBanks 100 50) (scenarioRequest 40)).banks "BankA:50052" "alice" =
        some (bs - 40) ∧
      balanceAt (scenarioGateway.ProcessPayment (Network.reliable "2025-01-01T00:00:00Z")
        (scenarioBanks 100 50) (scenarioRequest 40)).banks "BankB:50053" "bob" =
        some (br + 40) ∧
      (∀ t u, t ≠ "BankA:50052" ∨ u ≠ "alice" → t ≠ "BankB:50053" ∨ u ≠ "bob" →
        balanceAt (scenarioGateway.ProcessPayment (Network.reliable "2025-01-01T00:00:00Z")
          (scenarioBanks 100 50) (scenarioRequest 40)).banks t u =
          balanceAt (scenarioBanks 100 50) t u) ∧
      totalBalance (scenarioGateway.ProcessPayment (Network.reliable "2025-01-01T00:00:00Z")
        (scenarioBanks 100 50) (scenarioRequest 40)).banks = totalBalance (scenarioBanks 100 50) :=
  ⟨by decide,
   committed_transfer scenarioGateway (Network.reliable "2025-01-01T00:00:00Z")
     (scenarioBanks 100 50) (scenarioRequest 40) (by decide) (by decide)⟩

/-- C1, evaluated at the input of the specification's happy path (alice and bob
registered, alice holding 100 at BankA, bob holding 0 at BankB, amount 40, a
fresh non-empty key, a network without errors): `ProcessPayment` does not
succeed. bob's bank votes false on Prepare because bob's balance 0 is below 40,
the run ends with code Aborted, both balances stay 100 and 0, no history
record is written and the key is left marked false. -/
theorem happy_path_scenario_aborts :
    (scenarioGateway.ProcessPayment (Network.reliable "2025-01-01T00:00:00Z")
      (scenarioBanks 100 0) (scenarioRequest 40)) =
    { resp := .error ⟨codes.Aborted, "Receiver bank aborted the transaction"⟩
      gateway := { scenarioGateway with processedTxs := [("k1", false)] }
      banks := scenarioBanks 100 0
      calls :=
        [ .PreparePayment "BankA:50052" ⟨"1700000000000000000", "alice", 40⟩ true,
          .PreparePayment "BankB:50053" ⟨"1700000000000000000", "bob", 40⟩ false,
          .AbortPayment "BankA:50052" ⟨"1700000000000000000"⟩ ] } ∧
    ((BankServer.mk [("bob", ⟨"bob", "secret", 0⟩)]).PreparePayment
      ⟨"1700000000000000000", "bob", 40⟩).1 = .ok ⟨false, "Insufficient funds"⟩ := by
  decide

/-- C3, as stated, fails: alice holds 100, bob holds 50, alice pays 40, both
Prepares vote true, the sender's Commit succeeds and the receiver's Commit
request is lost. The run ends with code Aborted and the sum of all balances
drops from 150 to 110. -/
theorem aborted_after_sender_commit_loses_money :
    (scenarioGateway.ProcessPayment (Network.receiverCommitLost "2025-01-01T00:00:00Z")
      (scenarioBanks 100 50) (scenarioRequest 40)).resp =
      .error ⟨codes.Aborted, "Receiver bank commit failed"⟩ ∧
    totalBalance (scenarioBanks 100 50) = 150 ∧
    totalBalance (scenarioGateway.ProcessPayment
      (Network.receiverCommitLost "2025-01-01T00:00:00Z")
      (scenarioBanks 100 50) (scenarioRequest 40)).banks = 110 ∧
    (scenarioGateway.ProcessPayment (Network.receiverCommitLost "2025-01-01T00:00:00Z")
      (scenarioBanks 100 50) (scenarioRequest 40)).banks = scenarioBanks 60 50 := by
  decide

theorem replay_run (s : PaymentGatewayServer) (net : Network)
    (banks : List (String × BankServer)) (req : TransactionRequest) (result : Bool)
    (hS : Load req.SenderUsername s.users ≠ none) (hR : Load req.ReceiverUsername s.users ≠ none)
    (hk : req.IdempotencyKey ≠ "")
    (hl : Load req.IdempotencyKey s.processedTxs = some result) :
    s.ProcessPayment net banks req =
      { resp := .ok ⟨true, "Transaction already processed: " ++ toString result⟩
        gateway := s
        banks := banks
        calls := [] } := by
  have hreg : ¬ ((Load req.SenderUsername s.users).isNone ||
      (Load req.ReceiverUsername s.users).isNone) = true := by
    cases h1 : Load req.SenderUsername s.users with
    | none => exact absurd h1 hS
    | some u =>
      cases h2 : Load req.ReceiverUsername s.users with
      | none => exact absurd h2 hR
      | some v => simp
  simp only [PaymentGatewayServer.ProcessPayment, hreg, hk, hl, if_false, Bool.false_eq_true]

/-- C8: when sender and receiver are registered and the request's non-empty
idempotency key is already in the ledger with stored outcome `result`,
`ProcessPayment` returns Success = true with the message
"Transaction already processed: " followed by the stored outcome, issues no
bank call, and leaves the gateway (ledger, user registry, history) and every
bank exactly as they were. -/
theorem ProcessPayment_replay (s : PaymentGatewayServer) (net : Network)
    (banks : List (String × BankServer)) (req : TransactionRequest) (result : Bool)
    (hS : Load req.SenderUsername s.users ≠ none) (hR : Load req.ReceiverUsername s.users ≠ none)
    (hk : req.IdempotencyKey ≠ "")
    (hl : Load req.IdempotencyKey s.processedTxs = some result) :
    (s.ProcessPayment net banks req).resp =
      .ok ⟨true, "Transaction already processed: " ++ toString result⟩ ∧
    (s.ProcessPayment net banks req).calls = [] ∧
    (s.ProcessPayment net banks req).gateway.processedTxs = s.processedTxs ∧
    (s.ProcessPayment net banks req).gateway.users = s.users ∧
    (s.ProcessPayment net banks req).gateway.history = s.history ∧
    (s.ProcessPayment net banks req).banks = banks := by
  rw [replay_run s net banks req result hS hR hk hl]
  exact ⟨rfl, rfl, rfl, rfl, rfl, rfl⟩

/-- Witness of `ProcessPayment_replay`: the gateway has marked key k1 committed
and alice's request comes again. -/
theorem ProcessPayment_replay_witness :
    ({ scenarioGateway with processedTxs := [("k1", true)] }.ProcessPayment
      (Network.reliable "2025-01-01T00:00:05Z") (scenarioBanks 60 90) (scenarioRequest 40)).resp =
      .ok ⟨true, "Transaction already processed: true"⟩ :=
  (ProcessPayment_replay { scenarioGateway with processedTxs := [("k1", true)] }
    (Network.reliable "2025-01-01T00:00:05Z") (scenarioBanks 60 90) (scenarioRequest 40) true
    (by decide) (by decide) (by decide) (by decide)).1

/-- C10: `ProcessPayment` fails with FailedPrecondition whenever the sender or
the receiver is not in the user registry, whatever the idempotency key (empty
included); it fails with InvalidArgument when both are registered and the key
is empty; in both cases no bank call is issued and the gateway (ledger,
registry, history) and the banks are unchanged. -/
theorem ProcessPayment_preconditions (s : PaymentGatewayServer) (net : Network)
    (banks : List (String × BankServer)) (req : TransactionRequest) :
    (Load req.SenderUsername s.users = none ∨ Load req.ReceiverUsername s.users = none →
      s.ProcessPayment net banks req =
        { resp := .error ⟨codes.FailedPrecondition, "One or both users are not registered"⟩
          gateway := s
          banks := banks
          calls := [] }) ∧
    (Load req.SenderUsername s.users ≠ none → Load req.ReceiverUsername s.users ≠ none →
      req.IdempotencyKey = "" →
      s.ProcessPayment net banks req =
        { resp := .error ⟨codes.InvalidArgument, "IdempotencyKey must be provided"⟩
          gateway := s
          banks := banks
          calls := [] }) := by
  constructor
  · intro h
    have hreg : ((Load req.SenderUsername s.users).isNone ||
        (Load req.ReceiverUsername s.users).isNone) = true := by
      rcases h with h | h <;> simp [h]
    simp only [PaymentGatewayServer.ProcessPayment, hreg, if_true]
  · intro hS hR hk
    have hreg : ¬ ((Load req.SenderUsername s.users).isNone ||
        (Load req.ReceiverUsername s.users).isNone) = true := by
      cases h1 : Load req.SenderUsername s.users with
      | none => exact absurd h1 hS
      | some u =>
        cases h2 : Load req.ReceiverUsername s.users with
        | none => exact absurd h2 hR
        | some v => simp
    simp only [PaymentGatewayServer.ProcessPayment, hreg, hk, if_true, if_false,
      Bool.false_eq_true]

/-- Witness of `ProcessPayment_preconditions`: carol is not registered (and the
key is empty), then alice pays bob with an empty key. -/
theorem ProcessPayment_preconditions_witness :
    (scenarioGateway.ProcessPayment (Network.reliable "2025-01-01T00:00:00Z")
      (scenarioBanks 100 50) ⟨"t2", "alice", "carol", 40, "BankA:50052", "BankB:50053", ""⟩).resp =
      .error ⟨9, "One or both users are not registered"⟩ ∧
    (scenarioGateway.ProcessPayment (Network.reliable "2025-01-01T00:00:00Z")
      (scenarioBanks 100 50) ⟨"t2", "alice", "bob", 40, "BankA:50052", "BankB:50053", ""⟩).resp =
      .error ⟨3, "IdempotencyKey must be provided"⟩ :=
  ⟨congrArg Run.resp
    ((ProcessPayment_preconditions scenarioGateway (Network.reliable "2025-01-01T00:00:00Z")
      (scenarioBanks 100 50)
      ⟨"t2", "alice", "carol", 40, "BankA:50052", "BankB:50053", ""⟩).1 (Or.inr (by decide))),
   congrArg Run.resp
    ((ProcessPayment_preconditions scenarioGateway (Network.reliable "2025-01-01T00:00:00Z")
      (scenarioBanks 100 50)
      ⟨"t2", "alice", "bob", 40, "BankA:50052", "BankB:50053", ""⟩).2
      (by decide) (by decide) rfl)⟩

theorem ProcessPayment_terminal {s : PaymentGatewayServer} {net : Network}
    {banks : List (String × BankServer)} {req : TransactionRequest}
    (hterm : (s.ProcessPayment net banks req).resp = committedResponse ∨
      (s.ProcessPayment net banks req).aborted) :
    Load req.SenderUsername (s.ProcessPayment net banks req).gateway.users ≠ none ∧
    Load req.ReceiverUsername (s.ProcessPayment net banks req).gateway.users ≠ none ∧
    req.IdempotencyKey ≠ "" ∧
    (∃ v, Load req.IdempotencyKey (s.ProcessPayment net banks req).gateway.processedTxs = some v ∧
      (v = true ↔ (s.ProcessPayment net banks req).resp = committedResponse)) ∧
    (s.ProcessPayment net banks req).calls.countP BankCall.isSenderCommit ≤ 1 := by
  unfold Run.aborted at hterm
  by_cases hreg :
      ((Load req.SenderUsername s.users).isNone || (Load req.ReceiverUsername s.users).isNone) = true
  · simp [PaymentGatewayServer.ProcessPayment, hreg, committedResponse, codes.Aborted,
      codes.FailedPrecondition] at hterm
  have hS : Load req.SenderUsername s.users ≠ none := by
    intro h; simp [h] at hreg
  have hR : Load req.ReceiverUsername s.users ≠ none := by
    intro h; simp [h] at hreg
  by_cases hkey : req.IdempotencyKey = ""
  · simp [PaymentGatewayServer.ProcessPayment, hreg, hkey, committedResponse, codes.Aborted,
      codes.InvalidArgument] at hterm
  cases hl : Load req.IdempotencyKey s.processedTxs with
  | some result =>
    simp only [PaymentGatewayServer.ProcessPayment, hreg, hkey, hl, committedResponse] at hterm
    simp at hterm
    exact absurd hterm (replay_ne_committed result)
  | none =>
  cases hd1 : net.dial req.SenderBank with
  | some e =>
    simp [PaymentGatewayServer.ProcessPayment, hreg, hkey, hl, hd1, committedResponse,
      codes.Aborted, codes.FailedPrecondition] at hterm
  | none =>
  cases hd2 : net.dial req.ReceiverBank with
  | some e =>
    simp [PaymentGatewayServer.ProcessPayment, hreg, hkey, hl, hd1, hd2, committedResponse,
      codes.Aborted, codes.FailedPrecondition] at hterm
  | none =>
  clear hterm
  refine ⟨?_, ?_, hkey, ?_⟩
  · simp only [PaymentGatewayServer.ProcessPayment, hreg, hkey, hl, hd1, hd2]
    simp only [Bool.false_eq_true, if_false]
    split_ifs <;> exact hS
  · simp only [PaymentGatewayServer.ProcessPayment, hreg, hkey, hl, hd1, hd2]
    simp only [Bool.false_eq_true, if_false]
    split_ifs <;> exact hR
  simp only [PaymentGatewayServer.ProcessPayment, hreg, hkey, hl, hd1, hd2]
  simp only [Bool.false_eq_true, if_false]
  split_ifs <;>
    simp [Load_Store_self, committedResponse, PaymentGatewayServer.storeTransactionRecord,
      BankCall.isSenderCommit, List.countP_cons]

theorem serve_replays (s : PaymentGatewayServer) (banks : List (String × BankServer))
    (req : TransactionRequest) (result : Bool)
    (hS : Load req.SenderUsername s.users ≠ none) (hR : Load req.ReceiverUsername s.users ≠ none)
    (hk : req.IdempotencyKey ≠ "")
    (hl : Load req.IdempotencyKey s.processedTxs = some result) (nets : List Network) :
    (s.serve banks (nets.map (fun n => (n, req)))).length = nets.length ∧
    ∀ r ∈ s.serve banks (nets.map (fun n => (n, req))),
      r = { resp := .ok ⟨true, "Transaction already processed: " ++ toString result⟩
            gateway := s
            banks := banks
            calls := [] } := by
  induction nets with
  | nil => simp [PaymentGatewayServer.serve]
  | cons n nets ih =>
    simp only [List.map_cons, PaymentGatewayServer.serve, List.length_cons, List.mem_cons]
    rw [replay_run s n banks req result hS hR hk hl]
    refine ⟨by rw [ih.1], ?_⟩
    intro r hr
    rcases hr with hr | hr
    · exact hr
    · exact ih.2 r hr

/-- C9, as stated, fails: alice holds 100 and asks to pay 200 under key k1.
The first `ProcessPayment` ends aborted and returns an error with code
Aborted; the same request sent again returns no error but Success = true. -/
theorem replay_of_aborted_reports_success :
    (scenarioGateway.serve (scenarioBanks 100 0)
      [(Network.reliable "2025-01-01T00:00:00Z", scenarioRequest 200),
       (Network.reliable "2025-01-01T00:00:05Z", scenarioRequest 200)]).map Run.resp =
    [.error ⟨codes.Aborted, "Sender bank aborted the transaction"⟩,
     .ok ⟨true, "Transaction already processed: false"⟩] := by
  decide

/-- C9, amended: once a first `ProcessPayment` with key K has ended committed
or aborted, each of the N later calls with the same request, whatever the
network does, returns Success = true with the message
"Transaction already processed: " followed by the stored outcome (true after a
commit, false after an abort), the same response for all N calls; it issues no
bank call and leaves the gateway and the banks as the first call left them.
The first call asks for at most one debit, so at most one commit occurs over
all N + 1 calls. -/
theorem replays_after_terminal (s : PaymentGatewayServer) (net : Network)
    (banks : List (String × BankServer)) (req : TransactionRequest) (nets : List Network)
    (hterm : (s.ProcessPayment net banks req).resp = committedResponse ∨
      (s.ProcessPayment net banks req).aborted) :
    ∃ v : Bool,
      (v = true ↔ (s.ProcessPayment net banks req).resp = committedResponse) ∧
      ((s.ProcessPayment net banks req).gateway.serve (s.ProcessPayment net banks req).banks
        (nets.map (fun n => (n, req)))).length = nets.length ∧
      (∀ r ∈ (s.ProcessPayment net banks req).gateway.serve
          (s.ProcessPayment net banks req).banks (nets.map (fun n => (n, req))),
        r.resp = .ok ⟨true, "Transaction already processed: " ++ toString v⟩ ∧
        r.calls = [] ∧
        r.gateway = (s.ProcessPayment net banks req).gateway ∧
        r.banks = (s.ProcessPayment net banks req).banks) ∧
      (s.ProcessPayment net banks req).calls.countP BankCall.isSenderCommit ≤ 1 := by
  obtain ⟨hS, hR, hk, ⟨v, hv, hiff⟩, hcount⟩ := ProcessPayment_terminal hterm
  have h := serve_replays (s.ProcessPayment net banks req).gateway
    (s.ProcessPayment net banks req).banks req v hS hR hk hv nets
  refine ⟨v, hiff, h.1, ?_, hcount⟩
  intro r hr
  rw [h.2 r hr]
  exact ⟨rfl, rfl, rfl, rfl⟩

/-- Witness of `replays_after_terminal`: alice pays bob 40 (committed), and the
request is sent twice more, once over a faulty network. -/
theorem replays_after_terminal_witness :
    (scenarioGateway.ProcessPayment (Network.reliable "2025-01-01T00:00:00Z")
      (scenarioBanks 100 50) (scenarioRequest 40)).resp = committedResponse ∧
    ∃ v : Bool,
      (v = true ↔ (scenarioGateway.ProcessPayment (Network.reliable "2025-01-01T00:00:00Z")
        (scenarioBanks 100 50) (scenarioRequest 40)).resp = committedResponse) ∧
      ((scenarioGateway.ProcessPayment (Network.reliable "2025-01-01T00:00:00Z")
        (scenarioBanks 100 50) (scenarioRequest 40)).gateway.serve
        (scenarioGateway.ProcessPayment (Network.reliable "2025-01-01T00:00:00Z")
          (scenarioBanks 100 50) (scenarioRequest 40)).banks
        ([Network.reliable "2025-01-01T00:00:05Z",
          Network.receiverCommitLost "2025-01-01T00:00:09Z"].map
          (fun n => (n, scenarioRequest 40)))).length =
        [Network.reliable "2025-01-01T00:00:05Z",
          Network.receiverCommitLost "2025-01-01T00:00:09Z"].length ∧
      (∀ r ∈ (scenarioGateway.ProcessPayment (Network.reliable "2025-01-01T00:00:00Z")
          (scenarioBanks 100 50) (scenarioRequest 40)).gateway.serve
          (scenarioGateway.ProcessPayment (Network.reliable "2025-01-01T00:00:00Z")
            (scenarioBanks 100 50) (scenarioRequest 40)).banks
          ([Network.reliable "2025-01-01T00:00:05Z",
            Network.receiverCommitLost "2025-01-01T00:00:09Z"].map
            (fun n => (n, scenarioRequest 40))),
        r.resp = .ok ⟨true, "Transaction already processed: " ++ toString v⟩ ∧
        r.calls = [] ∧
        r.gateway = (scenarioGateway.ProcessPayment (Network.reliable "2025-01-01T00:00:00Z")
          (scenarioBanks 100 50) (scenarioRequest 40)).gateway ∧
        r.banks = (scenarioGateway.ProcessPayment (Network.reliable "2025-01-01T00:00:00Z")
          (scenarioBanks 100 50) (scenarioRequest 40)).banks) ∧
      (scenarioGateway.ProcessPayment (Network.reliable "2025-01-01T00:00:00Z")
        (scenarioBanks 100 50) (scenarioRequest 40)).calls.countP BankCall.isSenderCommit ≤ 1 :=
  ⟨by decide,
   replays_after_terminal scenarioGateway (Network.reliable "2025-01-01T00:00:00Z")
     (scenarioBanks 100 50) (scenarioRequest 40)
     [Network.reliable "2025-01-01T00:00:05Z", Network.receiverCommitLost "2025-01-01T00:00:09Z"]
     (Or.inl (by decide))⟩

/-! ## The happy path in general -/

theorem rpc_delivered {R : Type} {banks : List (String × BankServer)} {target : String}
    (handler : BankServer → Except String R × BankServer) {b : BankServer}
    (hb : Load target banks = some b) :
    rpc Link.delivered banks target handler =
      ((handler b).1, Store target (handler b).2 banks) := by
  simp only [rpc, hb]

theorem voted_delivered {banks : List (String × BankServer)} {target : String}
    {p : PrepareRequest} {b : BankServer} {acc : Account}
    (hb : Load target banks = some b) (hacc : Load p.Account b.accounts = some acc) :
    voted (rpc Link.delivered banks target (fun b => b.PreparePayment p)).1 =
      decide (p.Amount ≤ acc.Balance) := by
  rw [rpc_delivered _ hb]
  by_cases hlt : acc.Balance < p.Amount
  · have hle : ¬ p.Amount ≤ acc.Balance := by omega
    simp [BankServer.PreparePayment, hacc, hlt, hle, voted]
  · have hle : p.Amount ≤ acc.Balance := by omega
    simp [BankServer.PreparePayment, hacc, hlt, hle, voted]

theorem credit_delivered {banks : List (String × BankServer)} {target : String}
    {c : CommitRequest} {b : BankServer} {acc : Account}
    (hb : Load target banks = some b) (hacc : Load c.Account b.accounts = some acc)
    (hs : c.IsSender = false) :
    succeeded (rpc Link.delivered banks target (fun b => b.CommitPayment c)).1 = true := by
  rw [rpc_delivered _ hb]
  simp [BankServer.CommitPayment, hacc, hs, succeeded]

theorem debit_delivered {banks : List (String × BankServer)} {target : String}
    {c : CommitRequest} {b : BankServer} {acc : Account}
    (hb : Load target banks = some b) (hacc : Load c.Account b.accounts = some acc)
    (hs : c.IsSender = true) (hle : c.Amount ≤ acc.Balance) :
    succeeded (rpc Link.delivered banks target (fun b => b.CommitPayment c)).1 = true := by
  rw [rpc_delivered _ hb]
  have hlt : ¬ acc.Balance < c.Amount := by omega
  simp [BankServer.CommitPayment, hacc, hs, hlt, succeeded]

theorem account_survives_commit {banks : List (String × BankServer)} {t t0 u : String}
    {b b0 : BankServer} {acc : Account} (c0 : CommitRequest) (acc0 : Account)
    (hb : Load t banks = some b) (hacc : Load u b.accounts = some acc)
    (hb0 : Load t0 banks = some b0) :
    ∃ b' acc', Load t (Store t0 (credited b0 c0 acc0) banks) = some b' ∧
      Load u b'.accounts = some acc' := by
  by_cases ht : t = t0
  · subst ht
    rw [hb] at hb0
    cases hb0
    refine ⟨credited b c0 acc0, ?_⟩
    rw [Load_Store_self]
    by_cases hu : u = c0.Account
    · subst hu
      exact ⟨⟨acc0.Username, acc0.Password,
          if c0.IsSender then acc0.Balance - c0.Amount else acc0.Balance + c0.Amount⟩,
        rfl, by simp [credited, Load_Store_self]⟩
    · exact ⟨acc, rfl, by simp [credited, Load_Store_of_ne hu, hacc]⟩
  · exact ⟨b, acc, by rw [Load_Store_of_ne ht, hb], hacc⟩

/-- The happy path as the code runs it: with both users registered, a fresh
non-empty key, both banks dialled and answering every call, both accounts
existing and the sender holding at least the amount, `ProcessPayment` commits
and appends the history record exactly when the receiver too holds at least
the amount; when the receiver holds less, the receiver's bank votes false and
the run is aborted with no balance changed and no record written. -/
theorem happy_path_needs_receiver_funds (s : PaymentGatewayServer) (net : Network)
    (banks : List (String × BankServer)) (req : TransactionRequest)
    (bS bR : BankServer) (accS accR : Account)
    (hSu : Load req.SenderUsername s.users ≠ none)
    (hRu : Load req.ReceiverUsername s.users ≠ none)
    (hk : req.IdempotencyKey ≠ "") (hfresh : Load req.IdempotencyKey s.processedTxs = none)
    (hd1 : net.dial req.SenderBank = none) (hd2 : net.dial req.ReceiverBank = none)
    (hl1 : net.senderPrepare = Link.delivered) (hl2 : net.receiverPrepare = Link.delivered)
    (hl3 : net.senderCommit = Link.delivered) (hl4 : net.receiverCommit = Link.delivered)
    (hbS : Load req.SenderBank banks = some bS)
    (haccS : Load req.SenderUsername bS.accounts = some accS)
    (hbR : Load req.ReceiverBank banks = some bR)
    (haccR : Load req.ReceiverUsername bR.accounts = some accR)
    (hfunds : req.Amount ≤ accS.Balance) :
    (req.Amount ≤ accR.Balance →
      (s.ProcessPayment net banks req).resp = committedResponse ∧
      (s.ProcessPayment net banks req).gateway.history = s.history ++
        [⟨req.TransactionId, req.SenderUsername, req.ReceiverUsername, req.Amount, net.now,
          "Transaction committed successfully"⟩]) ∧
    (accR.Balance < req.Amount →
      (s.ProcessPayment net banks req).resp =
        .error ⟨codes.Aborted, "Receiver bank aborted the transaction"⟩ ∧
      (s.ProcessPayment net banks req).banks = banks ∧
      (s.ProcessPayment net banks req).gateway.history = s.history) := by
  have hreg : ¬ ((Load req.SenderUsername s.users).isNone ||
      (Load req.ReceiverUsername s.users).isNone) = true := by
    cases h1 : Load req.SenderUsername s.users with
    | none => exact absurd h1 hSu
    | some u =>
      cases h2 : Load req.ReceiverUsername s.users with
      | none => exact absurd h2 hRu
      | some v => simp
  have hv1 : voted (rpc Link.delivered banks req.SenderBank
      (fun b => b.PreparePayment ⟨req.TransactionId, req.SenderUsername, req.Amount⟩)).1
      = true := by
    rw [voted_delivered hbS haccS]
    simpa using hfunds
  have hv2 : voted (rpc Link.delivered banks req.ReceiverBank
      (fun b => b.PreparePayment ⟨req.TransactionId, req.ReceiverUsername, req.Amount⟩)).1
      = decide (req.Amount ≤ accR.Balance) := voted_delivered hbR haccR
  have hc1 : succeeded (rpc Link.delivered banks req.SenderBank
      (fun b => b.CommitPayment ⟨req.TransactionId, req.SenderUsername, req.Amount, true⟩)).1
      = true := debit_delivered hbS haccS rfl hfunds
  have hbanks3 := (succeeded_rpc hc1)
  obtain ⟨bS', accS', hbS', haccS', -, hbanks3⟩ := hbanks3
  rw [hbS] at hbS'
  cases hbS'
  obtain ⟨bR', accR', hbR', haccR'⟩ :=
    account_survives_commit
      ⟨req.TransactionId, req.SenderUsername, req.Amount, true⟩ accS' hbR haccR hbS
  have hc2 : succeeded (rpc Link.delivered
      (rpc Link.delivered banks req.SenderBank
        (fun b => b.CommitPayment ⟨req.TransactionId, req.SenderUsername, req.Amount, true⟩)).2
      req.ReceiverBank
      (fun b => b.CommitPayment ⟨req.TransactionId, req.ReceiverUsername, req.Amount, false⟩)).1
      = true := by
    rw [hbanks3]
    exact credit_delivered hbR' haccR' rfl
  simp only [PaymentGatewayServer.ProcessPayment, hreg, hk, hfresh, hd1, hd2, hl1, hl2, hl3, hl4,
    rpc_PreparePayment_banks, rpc_AbortPayment_banks]
  simp only [Bool.false_eq_true, if_false, hv1, hv2, hc1, hc2, Bool.not_true]
  constructor
  · intro hle
    simp [hle, committedResponse, PaymentGatewayServer.storeTransactionRecord]
  · intro hlt
    have hle : ¬ req.Amount ≤ accR.Balance := by omega
    simp [hle]

/-! ## Outcomes of the coordinator -/

theorem registered_of_not_isNone {s : PaymentGatewayServer} {req : TransactionRequest}
    (hS : Load req.SenderUsername s.users ≠ none)
    (hR : Load req.ReceiverUsername s.users ≠ none) :
    ¬ ((Load req.SenderUsername s.users).isNone ||
      (Load req.ReceiverUsername s.users).isNone) = true := by
  cases h1 : Load req.SenderUsername s.users with
  | none => exact absurd h1 hS
  | some u =>
    cases h2 : Load req.ReceiverUsername s.users with
    | none => exact absurd h2 hR
    | some v => simp

theorem ProcessPayment_gateway_cases (s : PaymentGatewayServer) (net : Network)
    (banks : List (String × BankServer)) (req : TransactionRequest) :
    ((s.ProcessPayment net banks req).gateway = s ∧
      (∀ x, (s.ProcessPayment net banks req).resp = .ok x →
        ∃ v, Load req.IdempotencyKey s.processedTxs = some v ∧
          x = ⟨true, "Transaction already processed: " ++ toString v⟩)) ∨
    (Load req.IdempotencyKey s.processedTxs = none ∧
      (∃ st, (s.ProcessPayment net banks req).resp = .error st) ∧
      (s.ProcessPayment net banks req).gateway.history = s.history ∧
      Load req.IdempotencyKey (s.ProcessPayment net banks req).gateway.processedTxs =
        some false ∧
      ∀ k, k ≠ req.IdempotencyKey →
        Load k (s.ProcessPayment net banks req).gateway.processedTxs =
          Load k s.processedTxs) ∨
    (Load req.IdempotencyKey s.processedTxs = none ∧
      (s.ProcessPayment net banks req).resp = committedResponse ∧
      (s.ProcessPayment net banks req).gateway.history =
        s.history ++ [committedRecord net req] ∧
      Load req.IdempotencyKey (s.ProcessPayment net banks req).gateway.processedTxs =
        some true ∧
      ∀ k, k ≠ req.IdempotencyKey →
        Load k (s.ProcessPayment net banks req).gateway.processedTxs =
          Load k s.processedTxs) := by
  by_cases hreg :
      ((Load req.SenderUsername s.users).isNone || (Load req.ReceiverUsername s.users).isNone) = true
  · left
    simp [PaymentGatewayServer.ProcessPayment, hreg]
  by_cases hkey : req.IdempotencyKey = ""
  · left
    simp [PaymentGatewayServer.ProcessPayment, hreg, hkey]
  cases hl : Load req.IdempotencyKey s.processedTxs with
  | some result =>
    left
    simp only [PaymentGatewayServer.ProcessPayment, hreg, hkey, hl]
    simp
  | none =>
  right
  have hne : ∀ k, k ≠ req.IdempotencyKey → ∀ b b' : Bool,
      Load k (Store req.IdempotencyKey b (Store req.IdempotencyKey b' s.processedTxs)) =
        Load k s.processedTxs := by
    intro k hk b b'
    rw [Load_Store_of_ne hk, Load_Store_of_ne hk]
  have hne1 : ∀ k, k ≠ req.IdempotencyKey → ∀ b : Bool,
      Load k (Store req.IdempotencyKey b s.processedTxs) = Load k s.processedTxs := by
    intro k hk b
    rw [Load_Store_of_ne hk]
  cases hd1 : net.dial req.SenderBank with
  | some e =>
    left
    simp only [PaymentGatewayServer.ProcessPayment, hreg, hkey, hl, hd1]
    simp only [Bool.false_eq_true, if_false]
    refine ⟨trivial, ⟨_, rfl⟩, ?_, Load_Store_self _ _ _, fun k hk => hne1 k hk false⟩
    trivial
  | none =>
  cases hd2 : net.dial req.ReceiverBank with
  | some e =>
    left
    simp only [PaymentGatewayServer.ProcessPayment, hreg, hkey, hl, hd1, hd2]
    simp only [Bool.false_eq_true, if_false]
    refine ⟨trivial, ⟨_, rfl⟩, ?_, Load_Store_self _ _ _, fun k hk => hne1 k hk false⟩
    trivial
  | none =>
  simp only [PaymentGatewayServer.ProcessPayment, hreg, hkey, hl, hd1, hd2]
  simp only [Bool.false_eq_true, if_false]
  split_ifs
  · left
    exact ⟨trivial, ⟨_, rfl⟩, rfl, Load_Store_self _ _ _, fun k hk => hne k hk false false⟩
  · left
    exact ⟨trivial, ⟨_, rfl⟩, rfl, Load_Store_self _ _ _, fun k hk => hne k hk false false⟩
  · left
    exact ⟨trivial, ⟨_, rfl⟩, rfl, Load_Store_self _ _ _, fun k hk => hne k hk false false⟩
  · left
    exact ⟨trivial, ⟨_, rfl⟩, rfl, Load_Store_self _ _ _, fun k hk => hne k hk false false⟩
  · right
    exact ⟨trivial, rfl, rfl, Load_Store_self _ _ _, fun k hk => hne k hk true false⟩

/-- C12, as stated, fails: with key k1 already marked committed and one record
in the history, the same request gets a success response (Success = true, no
error) and the history still holds that one record: no record is added. -/
theorem replay_success_appends_nothing :
    ({ scenarioGateway with
        processedTxs := [("k1", true)]
        history := [committedRecord (Network.reliable "2025-01-01T00:00:00Z")
          (scenarioRequest 40)] }.ProcessPayment
      (Network.reliable "2025-01-01T00:00:05Z") (scenarioBanks 60 90) (scenarioRequest 40)).resp =
      .ok ⟨true, "Transaction already processed: true"⟩ ∧
    ({ scenarioGateway with
        processedTxs := [("k1", true)]
        history := [committedRecord (Network.reliable "2025-01-01T00:00:00Z")
          (scenarioRequest 40)] }.ProcessPayment
      (Network.reliable "2025-01-01T00:00:05Z") (scenarioBanks 60 90)
      (scenarioRequest 40)).gateway.history.length = 1 := by
  decide

theorem agreesWith_step {s : PaymentGatewayServer} {log : List (String × TransactionRecord)}
    (net : Network) (banks : List (String × BankServer)) (req : TransactionRequest)
    (h : s.agreesWith log) :
    (s.ProcessPayment net banks req).gateway.agreesWith
      (log ++ (if (s.ProcessPayment net banks req).resp = committedResponse then
        [(req.IdempotencyKey, committedRecord net req)] else [])) := by
  obtain ⟨hh, hlog, hcount⟩ := h
  rcases ProcessPayment_gateway_cases s net banks req with hc | hc | hc
  · obtain ⟨hg, hx⟩ := hc
    have hne : (s.ProcessPayment net banks req).resp ≠ committedResponse := by
      intro hcm
      obtain ⟨v, -, hv⟩ := hx _ hcm
      have := congrArg TransactionResponse.Message hv
      exact replay_ne_committed v this.symm
    rw [if_neg hne, hg, List.append_nil]
    exact ⟨hh, hlog, hcount⟩
  · obtain ⟨hfresh, ⟨st, hst⟩, hhist, hself, hother⟩ := hc
    have hne : (s.ProcessPayment net banks req).resp ≠ committedResponse := by
      rw [hst]
      simp [committedResponse]
    rw [if_neg hne, List.append_nil]
    refine ⟨by rw [hhist]; exact hh, ?_, ?_⟩
    · intro p hp
      have hpk : p.1 ≠ req.IdempotencyKey := by
        intro heq
        have := hlog p hp
        rw [heq, hfresh] at this
        cases this
      rw [hother _ hpk]
      exact hlog p hp
    · intro k hk
      have hkk : k ≠ req.IdempotencyKey := by
        intro heq
        rw [heq, hself] at hk
        cases hk
      rw [hother _ hkk] at hk
      exact hcount k hk
  · obtain ⟨hfresh, hcm, hhist, hself, hother⟩ := hc
    rw [if_pos hcm]
    have hnotin : req.IdempotencyKey ∉ log.map (fun p => p.1) := by
      intro hin
      obtain ⟨p, hp, hpk⟩ := List.mem_map.mp hin
      have := hlog p hp
      rw [hpk, hfresh] at this
      cases this
    refine ⟨by rw [hhist, hh]; simp, ?_, ?_⟩
    · intro p hp
      rcases List.mem_append.mp hp with hp | hp
      · have hpk : p.1 ≠ req.IdempotencyKey := by
          intro heq
          have := hlog p hp
          rw [heq, hfresh] at this
          cases this
        rw [hother _ hpk]
        exact hlog p hp
      · rw [List.mem_singleton] at hp
        rw [hp]
        exact hself
    · intro k hk
      rw [List.map_append, List.count_append]
      by_cases hkk : k = req.IdempotencyKey
      · rw [hkk, List.count_eq_zero_of_not_mem hnotin]
        simp
      · rw [hother _ hkk] at hk
        rw [hcount k hk]
        simp [List.count_cons, Ne.symm hkk]

theorem agreesWith_serve (calls : List (Network × TransactionRequest)) :
    ∀ (s : PaymentGatewayServer) (banks : List (String × BankServer))
      (log : List (String × TransactionRecord)), s.agreesWith log →
      (s.serveFinal banks calls).agreesWith (log ++ s.serveLog banks calls) := by
  induction calls with
  | nil =>
    intro s banks log h
    simpa [PaymentGatewayServer.serveFinal, PaymentGatewayServer.serveLog] using h
  | cons c calls ih =>
    intro s banks log h
    obtain ⟨net, req⟩ := c
    simp only [PaymentGatewayServer.serveFinal, PaymentGatewayServer.serveLog]
    rw [← List.append_assoc]
    exact ih _ _ _ (agreesWith_step net banks req h)

/-- C13: from an empty ledger and an empty history (any user registry, any
banks), after any sequence of `ProcessPayment` calls, whatever the networks
and the requests: the history is exactly the records written by the committed
calls, in order; the idempotency key of each of those calls is marked committed
(true) in the ledger; and every key marked committed belongs to exactly one
committed call, so it has exactly one record, never a second one from a
replay. -/
theorem history_matches_committed_keys (users : List (String × registeredUser))
    (banks : List (String × BankServer)) (calls : List (Network × TransactionRequest)) :
    ((PaymentGatewayServer.mk [] users []).serveFinal banks calls).history =
      ((PaymentGatewayServer.mk [] users []).serveLog banks calls).map (fun p => p.2) ∧
    (∀ p ∈ (PaymentGatewayServer.mk [] users []).serveLog banks calls,
      Load p.1 ((PaymentGatewayServer.mk [] users []).serveFinal banks calls).processedTxs =
        some true) ∧
    (∀ k, Load k ((PaymentGatewayServer.mk [] users []).serveFinal banks calls).processedTxs =
        some true →
      (((PaymentGatewayServer.mk [] users []).serveLog banks calls).map
        (fun p => p.1)).count k = 1) := by
  have h0 : (PaymentGatewayServer.mk [] users []).agreesWith [] := by
    refine ⟨rfl, ?_, ?_⟩
    · intro p hp
      cases hp
    · intro k hk
      simp [Load] at hk
  have h := agreesWith_serve calls _ banks [] h0
  simpa [PaymentGatewayServer.agreesWith] using h

/-- Witness of `history_matches_committed_keys`: alice pays bob 40 (committed),
the same request is replayed, and a payment of 500 under key k2 is aborted;
the history holds the one record of key k1. -/
theorem history_matches_committed_keys_witness :
    (scenarioGateway.serveFinal (scenarioBanks 100 50)
      [(Network.reliable "2025-01-01T00:00:00Z", scenarioRequest 40),
       (Network.reliable "2025-01-01T00:00:05Z", scenarioRequest 40),
       (Network.reliable "2025-01-01T00:00:09Z",
         { scenarioRequest 500 with IdempotencyKey := "k2" })]).history =
      (scenarioGateway.serveLog (scenarioBanks 100 50)
      [(Network.reliable "2025-01-01T00:00:00Z", scenarioRequest 40),
       (Network.reliable "2025-01-01T00:00:05Z", scenarioRequest 40),
       (Network.reliable "2025-01-01T00:00:09Z",
         { scenarioRequest 500 with IdempotencyKey := "k2" })]).map (fun p => p.2) ∧
    (scenarioGateway.serveLog (scenarioBanks 100 50)
      [(Network.reliable "2025-01-01T00:00:00Z", scenarioRequest 40),
       (Network.reliable "2025-01-01T00:00:05Z", scenarioRequest 40),
       (Network.reliable "2025-01-01T00:00:09Z",
         { scenarioRequest 500 with IdempotencyKey := "k2" })]).map (fun p => p.1) = ["k1"] :=
  ⟨(history_matches_committed_keys scenarioGateway.users (scenarioBanks 100 50)
      [(Network.reliable "2025-01-01T00:00:00Z", scenarioRequest 40),
       (Network.reliable "2025-01-01T00:00:05Z", scenarioRequest 40),
       (Network.reliable "2025-01-01T00:00:09Z",
         { scenarioRequest 500 with IdempotencyKey := "k2" })]).1,
   by decide⟩

/-! ## Authentication and authorization -/

theorem Load_Delete_self {α : Type} (k : String) (m : List (String × α)) :
    Load k (Delete k m) = none := by
  induction m with
  | nil => rfl
  | cons p m ih =>
    obtain ⟨k', v'⟩ := p
    by_cases h : k' = k
    · simp [Delete, h, ih]
    · simp [Delete, Load, h, ih]

theorem Load_Delete_of_ne {α : Type} {k k' : String} (h : k' ≠ k) (m : List (String × α)) :
    Load k' (Delete k m) = Load k' m := by
  induction m with
  | nil => rfl
  | cons p m ih =>
    obtain ⟨k₁, v₁⟩ := p
    by_cases h₁ : k₁ = k
    · subst h₁
      simp [Delete, Load, Ne.symm h, ih]
    · by_cases h₂ : k₁ = k'
      · subst h₂
        simp [Delete, Load, h₁]
      · simp [Delete, Load, h₁, h₂, ih]

theorem authInterceptor_accepts {β : Type} {ctx : Context} (req : Request)
    {info : UnaryServerInfo} (handler : UnaryHandler β) {w : World}
    {md : List (String × List String)} {u p : String} {us ps : List String}
    {reg : registeredUser}
    (hm : info.FullMethod ≠ "/payment.PaymentGateway/Register")
    (hmd : ctx.metadata = some md) (hu : mdGet md "username" = u :: us)
    (hp : mdGet md "password" = p :: ps)
    (hreg : Load u w.gatewayInstance.users = some reg) (hpw : p = reg.password) :
    authInterceptor ctx req info handler w = handler ctx req w := by
  simp only [authInterceptor, hm, hmd, hu, hp, hreg, hpw, if_false, ne_eq, not_true_eq_false]

theorem authInterceptor_wrong_password {β : Type} {ctx : Context} (req : Request)
    {info : UnaryServerInfo} (handler : UnaryHandler β) {w : World}
    {md : List (String × List String)} {u p : String} {us ps : List String}
    {reg : registeredUser}
    (hm : info.FullMethod ≠ "/payment.PaymentGateway/Register")
    (hmd : ctx.metadata = some md) (hu : mdGet md "username" = u :: us)
    (hp : mdGet md "password" = p :: ps)
    (hreg : Load u w.gatewayInstance.users = some reg) (hpw : p ≠ reg.password) :
    authInterceptor ctx req info handler w = (.error ⟨7, "invalid credentials"⟩, w) := by
  simp only [authInterceptor, hm, hmd, hu, hp, hreg, hpw, if_false, ne_eq, not_false_eq_true,
    if_true]

theorem authInterceptor_unknown_user {β : Type} {ctx : Context} (req : Request)
    {info : UnaryServerInfo} (handler : UnaryHandler β) {w : World}
    {md : List (String × List String)} {u p : String} {us ps : List String}
    (hm : info.FullMethod ≠ "/payment.PaymentGateway/Register")
    (hmd : ctx.metadata = some md) (hu : mdGet md "username" = u :: us)
    (hp : mdGet md "password" = p :: ps)
    (hreg : Load u w.gatewayInstance.users = none) :
    authInterceptor ctx req info handler w = (.error ⟨16, "user not registered"⟩, w) := by
  simp only [authInterceptor, hm, hmd, hu, hp, hreg, if_false]

/-- C14: the decision of `authInterceptor`. For method Register the handler is
invoked with no check. For every other method the call fails with code 16 and
the handler is not invoked when the request has no metadata, no username
value, no password value, or a username that is not in the user registry; it
fails with code 7 when the user is registered and the presented password
differs from the stored one; otherwise the result is the handler's result,
unchanged. -/
theorem authInterceptor_decision {β : Type} (ctx : Context) (req : Request)
    (info : UnaryServerInfo) (handler : UnaryHandler β) (w : World) :
    (info.FullMethod = "/payment.PaymentGateway/Register" →
      authInterceptor ctx req info handler w = handler ctx req w) ∧
    (info.FullMethod ≠ "/payment.PaymentGateway/Register" →
      (ctx.metadata = none →
        authInterceptor ctx req info handler w = (.error ⟨16, "missing metadata"⟩, w)) ∧
      (∀ md, ctx.metadata = some md →
        (mdGet md "username" = [] ∨ mdGet md "password" = [] →
          authInterceptor ctx req info handler w = (.error ⟨16, "missing credentials"⟩, w)) ∧
        (∀ u us p ps, mdGet md "username" = u :: us → mdGet md "password" = p :: ps →
          (Load u w.gatewayInstance.users = none →
            authInterceptor ctx req info handler w =
              (.error ⟨16, "user not registered"⟩, w)) ∧
          (∀ reg, Load u w.gatewayInstance.users = some reg →
            (p ≠ reg.password →
              authInterceptor ctx req info handler w =
                (.error ⟨7, "invalid credentials"⟩, w)) ∧
            (p = reg.password →
              authInterceptor ctx req info handler w = handler ctx req w))))) := by
  refine ⟨fun hm => by simp only [authInterceptor, hm, if_true], fun hm => ⟨?_, ?_⟩⟩
  · intro hmd
    simp only [authInterceptor, hm, hmd, if_false]
  · intro md hmd
    refine ⟨?_, ?_⟩
    · intro h
      rcases h with h | h
      · simp only [authInterceptor, hm, hmd, h, if_false]
      · cases hu : mdGet md "username" with
        | nil => simp only [authInterceptor, hm, hmd, hu, if_false]
        | cons u us => simp only [authInterceptor, hm, hmd, hu, h, if_false]
    · intro u us p ps hu hp
      refine ⟨fun hreg => authInterceptor_unknown_user req handler hm hmd hu hp hreg, ?_⟩
      intro reg hreg
      exact ⟨fun hpw => authInterceptor_wrong_password req handler hm hmd hu hp hreg hpw,
        fun hpw => authInterceptor_accepts req handler hm hmd hu hp hreg hpw⟩

/-- Witness of `authInterceptor_decision`: alice presents her password on
`Unregister` and the handler runs; with another password the call fails
with code 7. -/
theorem authInterceptor_decision_witness :
    authInterceptor (credentials "alice" "secret") (.Unregister ⟨"alice"⟩)
      ⟨"/payment.PaymentGateway/Unregister"⟩ unregisterHandler
      ⟨scenarioGateway, scenarioBanks 100 0⟩ =
      unregisterHandler (credentials "alice" "secret") (.Unregister ⟨"alice"⟩)
        ⟨scenarioGateway, scenarioBanks 100 0⟩ ∧
    authInterceptor (credentials "alice" "guess") (.Unregister ⟨"alice"⟩)
      ⟨"/payment.PaymentGateway/Unregister"⟩ unregisterHandler
      ⟨scenarioGateway, scenarioBanks 100 0⟩ =
      (.error ⟨7, "invalid credentials"⟩, ⟨scenarioGateway, scenarioBanks 100 0⟩) :=
  ⟨(((((authInterceptor_decision (credentials "alice" "secret") (.Unregister ⟨"alice"⟩)
      ⟨"/payment.PaymentGateway/Unregister"⟩ unregisterHandler
      ⟨scenarioGateway, scenarioBanks 100 0⟩).2 (by decide)).2 _ rfl).2
        "alice" [] "secret" [] (by decide) (by decide)).2 ⟨"secret", "BankA:50052"⟩
        (by decide)).2 rfl,
   (((((authInterceptor_decision (credentials "alice" "guess") (.Unregister ⟨"alice"⟩)
      ⟨"/payment.PaymentGateway/Unregister"⟩ unregisterHandler
      ⟨scenarioGateway, scenarioBanks 100 0⟩).2 (by decide)).2 _ rfl).2
        "alice" [] "guess" [] (by decide) (by decide)).2 ⟨"secret", "BankA:50052"⟩
        (by decide)).1 (by decide)⟩

/-- C15: for distinct usernames U and V, a registry in which U is registered
with the presented password, and any handler, a `GetBalance` request and a
`GetTransactionHistory` request whose metadata username is U and whose request
username is V, passed through the installed chain (`authInterceptor`, then
`authorizationInterceptor`), fail with code 7 and leave the world unchanged,
whatever the handler is: the handler is not invoked, so no bank is contacted
and no history is read. -/
theorem auth_isolation {β : Type} (ctx : Context) (md : List (String × List String))
    (U V p : String) (us ps : List String) (reg : registeredUser) (w : World)
    (handler : UnaryHandler β)
    (hUV : U ≠ V) (hmd : ctx.metadata = some md) (hu : mdGet md "username" = U :: us)
    (hp : mdGet md "password" = p :: ps)
    (hreg : Load U w.gatewayInstance.users = some reg) (hpw : p = reg.password) :
    createGRPCServer ctx (.GetBalance ⟨V⟩) ⟨"/payment.PaymentGateway/GetBalance"⟩ handler w =
      (.error ⟨7, "unauthorized: " ++ U ++ " cannot view balance for " ++ V⟩, w) ∧
    createGRPCServer ctx (.GetTransactionHistory ⟨V⟩)
      ⟨"/payment.PaymentGateway/GetTransactionHistory"⟩ handler w =
      (.error ⟨7, "unauthorized: " ++ U ++ " cannot view transaction history for " ++ V⟩,
        w) := by
  have hVU : V ≠ U := Ne.symm hUV
  constructor
  · unfold createGRPCServer
    rw [authInterceptor_accepts _ _ (by decide) hmd hu hp hreg hpw]
    simp [authorizationInterceptor, hmd, hu, hVU]
  · unfold createGRPCServer
    rw [authInterceptor_accepts _ _ (by decide) hmd hu hp hreg hpw]
    simp [authorizationInterceptor, hmd, hu, hVU]

/-- Witness of `auth_isolation`: alice, with her own password, asks for bob's
balance and for bob's history; the handler given would unregister bob. -/
theorem auth_isolation_witness :
    createGRPCServer (credentials "alice" "secret") (.GetBalance ⟨"bob"⟩)
      ⟨"/payment.PaymentGateway/GetBalance"⟩ unregisterHandler
      ⟨scenarioGateway, scenarioBanks 100 0⟩ =
      (.error ⟨7, "unauthorized: alice cannot view balance for bob"⟩,
        ⟨scenarioGateway, scenarioBanks 100 0⟩) ∧
    createGRPCServer (credentials "alice" "secret") (.GetTransactionHistory ⟨"bob"⟩)
      ⟨"/payment.PaymentGateway/GetTransactionHistory"⟩ unregisterHandler
      ⟨scenarioGateway, scenarioBanks 100 0⟩ =
      (.error ⟨7, "unauthorized: alice cannot view transaction history for bob"⟩,
        ⟨scenarioGateway, scenarioBanks 100 0⟩) :=
  auth_isolation (credentials "alice" "secret") _ "alice" "bob" "secret" [] []
    ⟨"secret", "BankA:50052"⟩ ⟨scenarioGateway, scenarioBanks 100 0⟩ unregisterHandler
    (by decide) rfl (by decide) (by decide) (by decide) rfl

theorem foldl_append_if {α β : Type} (f : α → β) (p : α → Bool) (xs : List α) (acc : List β) :
    xs.foldl (fun acc x => if p x then acc ++ [f x] else acc) acc =
      acc ++ (xs.filter p).map f := by
  induction xs generalizing acc with
  | nil => simp
  | cons x xs ih =>
    simp only [List.foldl_cons, ih]
    by_cases hx : p x
    · simp [hx, List.filter_cons]
    · simp [hx, List.filter_cons]

theorem foldl_append_map {α β : Type} (f : α → β) (xs : List α) (acc : List β) :
    xs.foldl (fun acc x => acc ++ [f x]) acc = acc ++ xs.map f := by
  induction xs generalizing acc with
  | nil => simp
  | cons x xs ih => simp [List.foldl_cons, ih]

/-- C16: for every stored history and every username u, `GetTransactionHistory`
for u with metadata username u returns no error and exactly the stored records
whose sender or receiver is u, each converted field by field (its six fields
unchanged), in stored order: a record is in the answer if and only if it is
stored and involves u, and the answer is a sublist of the stored history. The
gateway is left unchanged. -/
theorem history_of_user (s : PaymentGatewayServer) (md : List (String × List String))
    (u : String) (us : List String) (hu : mdGet md "username" = u :: us) :
    s.GetTransactionHistory ⟨some md⟩ ⟨u⟩ =
      (.ok ⟨(s.history.filter (fun r => decide (r.Sender = u ∨ r.Receiver = u))).map toProto⟩,
        s) ∧
    (∀ r, r ∈ s.history.filter (fun r => decide (r.Sender = u ∨ r.Receiver = u)) ↔
      r ∈ s.history ∧ (r.Sender = u ∨ r.Receiver = u)) ∧
    (s.history.filter (fun r => decide (r.Sender = u ∨ r.Receiver = u))).Sublist s.history ∧
    (∀ r : TransactionRecord,
      (toProto r).TransactionId = r.TransactionId ∧ (toProto r).Sender = r.Sender ∧
      (toProto r).Receiver = r.Receiver ∧ (toProto r).Amount = r.Amount ∧
      (toProto r).Timestamp = r.Timestamp ∧ (toProto r).Message = r.Message) := by
  refine ⟨?_, ?_, List.filter_sublist _, fun r => ⟨rfl, rfl, rfl, rfl, rfl, rfl⟩⟩
  · simp only [PaymentGatewayServer.GetTransactionHistory, hu, ne_eq, not_true_eq_false,
      if_false]
    have h1 := foldl_append_if (fun r : TransactionRecord => r)
      (fun r => r.Sender = u || r.Receiver = u) s.history []
    simp only [List.nil_append, List.map_id'] at h1
    rw [h1, foldl_append_map]
    simp only [List.nil_append]
    congr 5
    funext r
    simp [Bool.decide_or]
  · intro r
    simp [List.mem_filter]

/-- Witness of `history_of_user`: a history of three records, two of them
involving alice. -/
theorem history_of_user_witness :
    ({ scenarioGateway with history :=
        [⟨"t1", "alice", "bob", 40, "2025-01-01T00:00:00Z", "Transaction committed successfully"⟩,
         ⟨"t2", "bob", "carol", 5, "2025-01-01T00:00:01Z", "Transaction committed successfully"⟩,
         ⟨"t3", "carol", "alice", 7, "2025-01-01T00:00:02Z",
          "Transaction committed successfully"⟩] }.GetTransactionHistory
      (credentials "alice" "secret") ⟨"alice"⟩).1 =
    .ok ⟨[⟨"t1", "alice", "bob", 40, "2025-01-01T00:00:00Z", "Transaction committed successfully"⟩,
          ⟨"t3", "carol", "alice", 7, "2025-01-01T00:00:02Z",
           "Transaction committed successfully"⟩]⟩ :=
  (congrArg Prod.fst (history_of_user
    { scenarioGateway with history :=
        [⟨"t1", "alice", "bob", 40, "2025-01-01T00:00:00Z", "Transaction committed successfully"⟩,
         ⟨"t2", "bob", "carol", 5, "2025-01-01T00:00:01Z", "Transaction committed successfully"⟩,
         ⟨"t3", "carol", "alice", 7, "2025-01-01T00:00:02Z",
          "Transaction committed successfully"⟩] }
    [("username", ["alice"]), ("password", ["secret"])] "alice" [] (by decide)).1).trans
    (by decide)

theorem mdGet_credentials (u p : String) :
    mdGet [("username", [u]), ("password", [p])] "username" = [u] ∧
    mdGet [("username", [u]), ("password", [p])] "password" = [p] := by
  constructor
  · simp [mdGet, Load]
  · have h : ¬ ("username" = "password") := by decide
    simp [mdGet, Load, h]

/-- C19: `Register` never fails and overwrites without authentication. For
every gateway and every (u, p, b): `Register(u, p, b)` returns success, maps u
to password p and bank b whatever entry u had, leaves every other user's entry,
the ledger and the history unchanged, and passes the installed interceptor
chain whatever the request context is (no credentials are checked). After it,
on any other method, `authInterceptor` lets u through with password p and
rejects u with any other password, the previous one included, with code 7. -/
theorem Register_overwrites (β : Type) (s : PaymentGatewayServer) (req : RegisterRequest) :
    (s.Register req).1 = .ok ⟨true, "User registered successfully"⟩ ∧
    Load req.Username (s.Register req).2.users = some ⟨req.Password, req.BankName⟩ ∧
    (∀ u, u ≠ req.Username → Load u (s.Register req).2.users = Load u s.users) ∧
    (s.Register req).2.processedTxs = s.processedTxs ∧
    (s.Register req).2.history = s.history ∧
    (∀ (ctx : Context) (banks : List (String × BankServer)),
      createGRPCServer ctx (.Register req) ⟨"/payment.PaymentGateway/Register"⟩
        registerHandler ⟨s, banks⟩ =
        ((s.Register req).1, ⟨(s.Register req).2, banks⟩)) ∧
    (∀ (rq : Request) (info : UnaryServerInfo) (handler : UnaryHandler β)
        (banks : List (String × BankServer)),
      info.FullMethod ≠ "/payment.PaymentGateway/Register" →
      authInterceptor (credentials req.Username req.Password) rq info handler
        ⟨(s.Register req).2, banks⟩ =
        handler (credentials req.Username req.Password) rq ⟨(s.Register req).2, banks⟩ ∧
      ∀ p', p' ≠ req.Password →
        authInterceptor (credentials req.Username p') rq info handler
          ⟨(s.Register req).2, banks⟩ =
          (.error ⟨7, "invalid credentials"⟩, ⟨(s.Register req).2, banks⟩)) := by
  have hload : Load req.Username (s.Register req).2.users =
      some ⟨req.Password, req.BankName⟩ := by
    simp [PaymentGatewayServer.Register, Load_Store_self]
  refine ⟨rfl, hload, ?_, rfl, rfl, ?_, ?_⟩
  · intro u hu
    simp [PaymentGatewayServer.Register, Load_Store_of_ne hu]
  · intro ctx banks
    simp [createGRPCServer, authInterceptor, authorizationInterceptor, loggingInterceptor,
      registerHandler]
  · intro rq info handler banks hm
    refine ⟨?_, ?_⟩
    · exact authInterceptor_accepts rq handler hm rfl (mdGet_credentials _ _).1
        (mdGet_credentials _ _).2 hload rfl
    · intro p' hp'
      exact authInterceptor_wrong_password rq handler hm rfl (mdGet_credentials _ _).1
        (mdGet_credentials _ _).2 hload hp'

/-- Witness of `Register_overwrites`: alice, registered with password "secret",
is registered again with password "hunter2" by a request that carries no
metadata; her old password is then refused with code 7. -/
theorem Register_overwrites_witness :
    createGRPCServer ⟨none⟩ (.Register ⟨"alice", "hunter2", "BankA:50052"⟩)
      ⟨"/payment.PaymentGateway/Register"⟩ registerHandler
      ⟨scenarioGateway, scenarioBanks 100 0⟩ =
      ((scenarioGateway.Register ⟨"alice", "hunter2", "BankA:50052"⟩).1,
        ⟨(scenarioGateway.Register ⟨"alice", "hunter2", "BankA:50052"⟩).2,
          scenarioBanks 100 0⟩) ∧
    authInterceptor (credentials "alice" "secret") (.Unregister ⟨"alice"⟩)
      ⟨"/payment.PaymentGateway/Unregister"⟩ unregisterHandler
      ⟨(scenarioGateway.Register ⟨"alice", "hunter2", "BankA:50052"⟩).2, scenarioBanks 100 0⟩ =
      (.error ⟨7, "invalid credentials"⟩,
        ⟨(scenarioGateway.Register ⟨"alice", "hunter2", "BankA:50052"⟩).2,
          scenarioBanks 100 0⟩) :=
  ⟨(Register_overwrites UnregisterResponse scenarioGateway ⟨"alice", "hunter2", "BankA:50052"⟩).2.2.2.2.2.1
      ⟨none⟩ (scenarioBanks 100 0),
   ((Register_overwrites UnregisterResponse scenarioGateway ⟨"alice", "hunter2", "BankA:50052"⟩).2.2.2.2.2.2
      (.Unregister ⟨"alice"⟩) ⟨"/payment.PaymentGateway/Unregister"⟩ unregisterHandler
      (scenarioBanks 100 0) (by decide)).2 "secret" (by decide)⟩

/-- C20: `authorizationInterceptor` returns the handler's result for every
method other than GetBalance and GetTransactionHistory, whatever the context
and whatever username the request names. So, for every registry in which U is
registered with the presented password and V is registered, an `Unregister(V)`
request carrying U's credentials passes the installed chain, returns success
and removes V from the registry (every other user's entry is kept), after
which V's credentials, with any password, fail authentication with code 16 on
every method other than Register. -/
theorem any_user_can_unregister_another :
    (∀ (β : Type) (ctx : Context) (req : Request) (info : UnaryServerInfo)
        (handler : UnaryHandler β) (w : World),
      info.FullMethod ≠ "/payment.PaymentGateway/GetBalance" →
      info.FullMethod ≠ "/payment.PaymentGateway/GetTransactionHistory" →
      authorizationInterceptor ctx req info handler w = handler ctx req w) ∧
    (∀ (w : World) (U V pU : String) (regU regV : registeredUser),
      Load U w.gatewayInstance.users = some regU → pU = regU.password →
      Load V w.gatewayInstance.users = some regV →
      (createGRPCServer (credentials U pU) (.Unregister ⟨V⟩)
        ⟨"/payment.PaymentGateway/Unregister"⟩ unregisterHandler w).1 =
        .ok ⟨true, "User unregistered successfully"⟩ ∧
      Load V (createGRPCServer (credentials U pU) (.Unregister ⟨V⟩)
        ⟨"/payment.PaymentGateway/Unregister"⟩ unregisterHandler w).2.gatewayInstance.users =
        none ∧
      (∀ u, u ≠ V →
        Load u (createGRPCServer (credentials U pU) (.Unregister ⟨V⟩)
          ⟨"/payment.PaymentGateway/Unregister"⟩ unregisterHandler
          w).2.gatewayInstance.users = Load u w.gatewayInstance.users) ∧
      ∀ (β : Type) (pV : String) (rq : Request) (info : UnaryServerInfo)
          (handler : UnaryHandler β),
        info.FullMethod ≠ "/payment.PaymentGateway/Register" →
        authInterceptor (credentials V pV) rq info handler
          (createGRPCServer (credentials U pU) (.Unregister ⟨V⟩)
            ⟨"/payment.PaymentGateway/Unregister"⟩ unregisterHandler w).2 =
          (.error ⟨16, "user not registered"⟩,
            (createGRPCServer (credentials U pU) (.Unregister ⟨V⟩)
              ⟨"/payment.PaymentGateway/Unregister"⟩ unregisterHandler w).2)) := by
  constructor
  · intro β ctx req info handler w h1 h2
    simp [authorizationInterceptor, h1, h2]
  · intro w U V pU regU regV hU hpU hV
    have hrun : createGRPCServer (credentials U pU) (.Unregister ⟨V⟩)
        ⟨"/payment.PaymentGateway/Unregister"⟩ unregisterHandler w =
        (.ok ⟨true, "User unregistered successfully"⟩,
          { w with gatewayInstance :=
              { w.gatewayInstance with users := Delete V w.gatewayInstance.users } }) := by
      unfold createGRPCServer
      rw [@authInterceptor_accepts _ (credentials U pU) (.Unregister ⟨V⟩)
        ⟨"/payment.PaymentGateway/Unregister"⟩ _ w _ U pU [] [] regU (by decide) rfl
        (mdGet_credentials _ _).1 (mdGet_credentials _ _).2 hU hpU]
      simp [authorizationInterceptor, loggingInterceptor, unregisterHandler,
        PaymentGatewayServer.Unregister, hV]
    rw [hrun]
    refine ⟨rfl, Load_Delete_self _ _, fun u hu => Load_Delete_of_ne hu _, ?_⟩
    intro β pV rq info handler hm
    exact authInterceptor_unknown_user rq handler hm rfl (mdGet_credentials _ _).1
      (mdGet_credentials _ _).2 (Load_Delete_self _ _)

/-- Witness of `any_user_can_unregister_another`: alice, with her own
password, unregisters bob. -/
theorem any_user_can_unregister_another_witness :
    (createGRPCServer (credentials "alice" "secret") (.Unregister ⟨"bob"⟩)
      ⟨"/payment.PaymentGateway/Unregister"⟩ unregisterHandler
      ⟨scenarioGateway, scenarioBanks 100 0⟩).1 =
      .ok ⟨true, "User unregistered successfully"⟩ ∧
    Load "bob" (createGRPCServer (credentials "alice" "secret") (.Unregister ⟨"bob"⟩)
      ⟨"/payment.PaymentGateway/Unregister"⟩ unregisterHandler
      ⟨scenarioGateway, scenarioBanks 100 0⟩).2.gatewayInstance.users = none :=
  ⟨(any_user_can_unregister_another.2 ⟨scenarioGateway, scenarioBanks 100 0⟩
      "alice" "bob" "secret" ⟨"secret", "BankA:50052"⟩ ⟨"secret", "BankB:50053"⟩
      (by decide) rfl (by decide)).1,
   (any_user_can_unregister_another.2 ⟨scenarioGateway, scenarioBanks 100 0⟩
      "alice" "bob" "secret" ⟨"secret", "BankA:50052"⟩ ⟨"secret", "BankB:50053"⟩
      (by decide) rfl (by decide)).2.1⟩

/-! ## Keys recorded before the dial -/

theorem ProcessPayment_users (s : PaymentGatewayServer) (net : Network)
    (banks : List (String × BankServer)) (req : TransactionRequest) :
    (s.ProcessPayment net banks req).gateway.users = s.users := by
  by_cases hreg :
      ((Load req.SenderUsername s.users).isNone || (Load req.ReceiverUsername s.users).isNone) = true
  · simp [PaymentGatewayServer.ProcessPayment, hreg]
  by_cases hkey : req.IdempotencyKey = ""
  · simp [PaymentGatewayServer.ProcessPayment, hreg, hkey]
  cases hl : Load req.IdempotencyKey s.processedTxs with
  | some result => simp only [PaymentGatewayServer.ProcessPayment, hreg, hkey, hl]; simp
  | none =>
  cases hd1 : net.dial req.SenderBank with
  | some e => simp only [PaymentGatewayServer.ProcessPayment, hreg, hkey, hl, hd1]; simp
  | none =>
  cases hd2 : net.dial req.ReceiverBank with
  | some e => simp only [PaymentGatewayServer.ProcessPayment, hreg, hkey, hl, hd1, hd2]; simp
  | none =>
  simp only [PaymentGatewayServer.ProcessPayment, hreg, hkey, hl, hd1, hd2]
  simp only [Bool.false_eq_true, if_false]
  split_ifs <;> rfl

theorem ProcessPayment_keeps_entry {s : PaymentGatewayServer} (net : Network)
    (banks : List (String × BankServer)) (req : TransactionRequest) {k : String} {v : Bool}
    (hk : Load k s.processedTxs = some v) :
    Load k (s.ProcessPayment net banks req).gateway.processedTxs = some v := by
  rcases ProcessPayment_gateway_cases s net banks req with h | h | h
  · rw [h.1]
    exact hk
  · obtain ⟨hfresh, -, -, -, hother⟩ := h
    have hne : k ≠ req.IdempotencyKey := by
      intro heq
      rw [heq, hfresh] at hk
      cases hk
    rw [hother k hne]
    exact hk
  · obtain ⟨hfresh, -, -, -, hother⟩ := h
    have hne : k ≠ req.IdempotencyKey := by
      intro heq
      rw [heq, hfresh] at hk
      cases hk
    rw [hother k hne]
    exact hk

theorem serveFinal_keeps (calls : List (Network × TransactionRequest)) :
    ∀ (s : PaymentGatewayServer) (banks : List (String × BankServer)) (k : String) (v : Bool),
      Load k s.processedTxs = some v →
      Load k (s.serveFinal banks calls).processedTxs = some v ∧
      (s.serveFinal banks calls).users = s.users := by
  induction calls with
  | nil =>
    intro s banks k v hk
    exact ⟨hk, rfl⟩
  | cons c calls ih =>
    intro s banks k v hk
    obtain ⟨net, req⟩ := c
    simp only [PaymentGatewayServer.serveFinal]
    have h := ih (s.ProcessPayment net banks req).gateway (s.ProcessPayment net banks req).banks
      k v (ProcessPayment_keeps_entry net banks req hk)
    exact ⟨h.1, by rw [h.2, ProcessPayment_users]⟩

/-- C21: when `ProcessPayment` with both users registered and a fresh non-empty
key cannot dial the sender's or the receiver's bank, it fails with
FailedPrecondition, issues no bank call and changes no balance and no history,
but the key has already been stored in the ledger with the value false, the
value an in-flight or aborted transaction has. The entry is never removed:
after any further `ProcessPayment` calls, every later `ProcessPayment` with
that key (both users registered, whatever the network and the banks) returns
Success = true with message "Transaction already processed: false", issues no
bank call and leaves the gateway and the banks unchanged. -/
theorem dial_failure_keeps_key (s : PaymentGatewayServer) (net : Network)
    (banks : List (String × BankServer)) (req : TransactionRequest)
    (hS : Load req.SenderUsername s.users ≠ none)
    (hR : Load req.ReceiverUsername s.users ≠ none)
    (hk : req.IdempotencyKey ≠ "") (hfresh : Load req.IdempotencyKey s.processedTxs = none)
    (hdial : net.dial req.SenderBank ≠ none ∨ net.dial req.ReceiverBank ≠ none) :
    (∃ msg, (s.ProcessPayment net banks req).resp =
      .error ⟨codes.FailedPrecondition, msg⟩) ∧
    (s.ProcessPayment net banks req).calls = [] ∧
    (s.ProcessPayment net banks req).banks = banks ∧
    (s.ProcessPayment net banks req).gateway.history = s.history ∧
    Load req.IdempotencyKey (s.ProcessPayment net banks req).gateway.processedTxs =
      some false ∧
    (∀ (between : List (Network × TransactionRequest)) (net' : Network)
        (banks' : List (String × BankServer)) (req' : TransactionRequest),
      req'.IdempotencyKey = req.IdempotencyKey →
      Load req'.SenderUsername s.users ≠ none →
      Load req'.ReceiverUsername s.users ≠ none →
      ((s.ProcessPayment net banks req).gateway.serveFinal
          (s.ProcessPayment net banks req).banks between).ProcessPayment net' banks' req' =
        { resp := .ok ⟨true, "Transaction already processed: false"⟩
          gateway := (s.ProcessPayment net banks req).gateway.serveFinal
            (s.ProcessPayment net banks req).banks between
          banks := banks'
          calls := [] }) := by
  have hreg := registered_of_not_isNone hS hR
  have hfirst : (∃ msg, (s.ProcessPayment net banks req).resp =
        .error ⟨codes.FailedPrecondition, msg⟩) ∧
      (s.ProcessPayment net banks req).calls = [] ∧
      (s.ProcessPayment net banks req).banks = banks ∧
      (s.ProcessPayment net banks req).gateway.history = s.history ∧
      Load req.IdempotencyKey (s.ProcessPayment net banks req).gateway.processedTxs =
        some false := by
    cases hd1 : net.dial req.SenderBank with
    | some e =>
      simp only [PaymentGatewayServer.ProcessPayment, hreg, hk, hfresh, hd1]
      simp [Load_Store_self]
    | none =>
      cases hd2 : net.dial req.ReceiverBank with
      | some e =>
        simp only [PaymentGatewayServer.ProcessPayment, hreg, hk, hfresh, hd1, hd2]
        simp [Load_Store_self]
      | none =>
        rcases hdial with h | h
        · exact absurd hd1 h
        · exact absurd hd2 h
  obtain ⟨h1, h2, h3, h4, h5⟩ := hfirst
  refine ⟨h1, h2, h3, h4, h5, ?_⟩
  intro between net' banks' req' hkey hS' hR'
  have hkeep := serveFinal_keeps between (s.ProcessPayment net banks req).gateway
    (s.ProcessPayment net banks req).banks req.IdempotencyKey false h5
  have husers : ((s.ProcessPayment net banks req).gateway.serveFinal
      (s.ProcessPayment net banks req).banks between).users = s.users := by
    rw [hkeep.2, ProcessPayment_users]
  have := replay_run ((s.ProcessPayment net banks req).gateway.serveFinal
      (s.ProcessPayment net banks req).banks between) net' banks' req' false
    (by rw [husers]; exact hS') (by rw [husers]; exact hR') (by rw [hkey]; exact hk)
    (by rw [hkey]; exact hkeep.1)
  simpa using this

/-- Witness of `dial_failure_keeps_key`: alice pays bob 40 while BankA cannot
be dialled; the same request sent again over a reliable network is answered
"Transaction already processed: false" and no money moves. -/
theorem dial_failure_keeps_key_witness :
    (scenarioGateway.ProcessPayment (Network.dialFails "2025-01-01T00:00:00Z" "BankA:50052")
      (scenarioBanks 100 50) (scenarioRequest 40)).resp =
      .error ⟨codes.FailedPrecondition, "Error connecting to sender bank: invalid target"⟩ ∧
    ((scenarioGateway.ProcessPayment (Network.dialFails "2025-01-01T00:00:00Z" "BankA:50052")
        (scenarioBanks 100 50) (scenarioRequest 40)).gateway.serveFinal
        (scenarioGateway.ProcessPayment (Network.dialFails "2025-01-01T00:00:00Z" "BankA:50052")
          (scenarioBanks 100 50) (scenarioRequest 40)).banks []).ProcessPayment
      (Network.reliable "2025-01-01T00:00:05Z") (scenarioBanks 100 50) (scenarioRequest 40) =
      { resp := .ok ⟨true, "Transaction already processed: false"⟩
        gateway := (scenarioGateway.ProcessPayment
          (Network.dialFails "2025-01-01T00:00:00Z" "BankA:50052")
          (scenarioBanks 100 50) (scenarioRequest 40)).gateway.serveFinal
          (scenarioGateway.ProcessPayment
            (Network.dialFails "2025-01-01T00:00:00Z" "BankA:50052")
            (scenarioBanks 100 50) (scenarioRequest 40)).banks []
        banks := scenarioBanks 100 50
        calls := [] } :=
  ⟨by decide,
   (dial_failure_keeps_key scenarioGateway
      (Network.dialFails "2025-01-01T00:00:00Z" "BankA:50052") (scenarioBanks 100 50)
      (scenarioRequest 40) (by decide) (by decide) (by decide) (by decide)
      (Or.inl (by decide))).2.2.2.2.2 [] (Network.reliable "2025-01-01T00:00:05Z")
      (scenarioBanks 100 50) (scenarioRequest 40) rfl (by decide) (by decide)⟩

/-! ## The bank participant on `float64` values -/

namespace IEEE

theorem not_lt_iff_ge {a b : Float64} (ha : a ≠ .nan) (hb : b ≠ .nan) :
    a.lt b = false ↔ a.ge b = true := by
  cases a <;> cases b <;> simp_all [Float64.lt, Float64.ge, Float64.le]

theorem sub_nonneg (R : Rounding) {a b : Float64} (h : a.ge b = true)
    (hp : ¬ (a = .posInf ∧ b = .posInf)) (hn : ¬ (a = .negInf ∧ b = .negInf)) :
    Float64.le (.fin 0) (a.sub R b) = true := by
  cases a <;> cases b <;> simp_all [Float64.ge, Float64.le, Float64.sub]
  rename_i x y
  exact R.round_nonneg (x - y) (by omega)

theorem add_nonneg (R : Rounding) {a b : Float64} (ha : Float64.le (.fin 0) a = true)
    (hb : Float64.le (.fin 0) b = true) : Float64.le (.fin 0) (a.add R b) = true := by
  cases a <;> cases b <;> simp_all [Float64.le, Float64.add]
  rename_i x y
  exact R.round_nonneg (x + y) (by omega)

/-- C6, as stated, fails: on a bank where alice holds 100, a `PreparePayment`
for alice with amount NaN votes true although balance >= amount is false. -/
theorem PreparePayment_votes_true_on_NaN :
    ((BankServer.mk [("alice", ⟨"alice", "secret", .fin 100⟩)]).PreparePayment
      ⟨"t1", "alice", .nan⟩).1 = .ok ⟨true, "Prepared successfully"⟩ ∧
    Float64.ge (.fin 100) .nan = false := by
  decide

/-- C6, amended: `PreparePayment` never returns an error, and its vote is true
exactly when the requested account is in the account map and the test
balance < amount is false. When neither the balance nor the amount is NaN,
that is: the account exists and balance >= amount. -/
theorem PreparePayment_vote (s : BankServer) (req : PrepareRequest) :
    ∃ r, (s.PreparePayment req).1 = .ok r ∧
      (r.Vote = true ↔ ∃ acc, Load req.Account s.accounts = some acc ∧
        acc.Balance.lt req.Amount = false) ∧
      (req.Amount ≠ .nan →
        (∀ acc, Load req.Account s.accounts = some acc → acc.Balance ≠ .nan) →
        (r.Vote = true ↔ ∃ acc, Load req.Account s.accounts = some acc ∧
          acc.Balance.ge req.Amount = true)) := by
  unfold BankServer.PreparePayment
  cases hacc : Load req.Account s.accounts with
  | none => exact ⟨_, rfl, by simp, by simp⟩
  | some acc =>
    by_cases hlt : acc.Balance.lt req.Amount = true
    · refine ⟨⟨false, "Insufficient funds"⟩, by simp only [hlt, if_true], by simp [hlt], ?_⟩
      intro ha hb
      have := not_lt_iff_ge (hb acc rfl) ha
      simp only [Bool.false_eq_true, Option.some.injEq, exists_eq_left', false_iff]
      intro hge
      rw [this.mpr hge] at hlt
      exact absurd hlt (by decide)
    · have hlt' : acc.Balance.lt req.Amount = false := by simpa using hlt
      refine ⟨⟨true, "Prepared successfully"⟩, by simp [hlt'], by simp [hlt'], ?_⟩
      intro ha hb
      simp only [Option.some.injEq, exists_eq_left', true_iff]
      exact (not_lt_iff_ge (hb acc rfl) ha).mp hlt'

/-- Witness of `PreparePayment_vote`: alice holds 100 and is asked for 40. -/
theorem PreparePayment_vote_witness :
    ∃ r, ((BankServer.mk [("alice", ⟨"alice", "secret", .fin 100⟩)]).PreparePayment
        ⟨"t1", "alice", .fin 40⟩).1 = .ok r ∧
      (r.Vote = true ↔ ∃ acc,
        Load "alice" [("alice", (⟨"alice", "secret", .fin 100⟩ : Account))] = some acc ∧
        acc.Balance.ge (.fin 40) = true) := by
  obtain ⟨r, h1, -, h3⟩ := PreparePayment_vote
    (BankServer.mk [("alice", ⟨"alice", "secret", .fin 100⟩)]) ⟨"t1", "alice", .fin 40⟩
  exact ⟨r, h1, h3 (by decide) (by
    intro acc hacc
    simp [Load] at hacc
    rw [← hacc]
    decide)⟩

/-- C5, as stated, fails: alice holds 100 and a sender-side `CommitPayment` of
amount NaN returns Success = true although balance >= amount is false, and it
leaves alice's balance NaN, which is not >= 0. -/
theorem CommitPayment_succeeds_on_NaN :
    ((BankServer.mk [("alice", ⟨"alice", "secret", .fin 100⟩)]).CommitPayment Rounding.exact
      ⟨"t1", "alice", .nan, true⟩).1 = .ok ⟨true, "Commit successful"⟩ ∧
    Float64.ge (.fin 100) .nan = false ∧
    ((BankServer.mk [("alice", ⟨"alice", "secret", .fin 100⟩)]).CommitPayment Rounding.exact
      ⟨"t1", "alice", .nan, true⟩).2.balance "alice" = some .nan ∧
    Float64.le (.fin 0) .nan = false := by
  decide

/-- C5, amended: `CommitPayment` with isSender = true on an existing account
never returns an error; its response has Success = true exactly when the test
balance < amount is false, which for a balance and an amount that are not NaN
means balance >= amount. When it succeeds the account's new balance is the
`float64` difference balance - amount and every other account keeps its
balance; that new balance is >= 0 whenever balance >= amount holds and the two
are not the same infinity. When balance < amount the response is
Success = false with message "Insufficient funds on commit" and the bank state
is unchanged. -/
theorem CommitPayment_sender (R : Rounding) (s : BankServer) (req : CommitRequest)
    (acc : Account) (hacc : Load req.Account s.accounts = some acc)
    (hs : req.IsSender = true) :
    (∃ r, (s.CommitPayment R req).1 = .ok r ∧
      (r.Success = true ↔ acc.Balance.lt req.Amount = false) ∧
      (acc.Balance ≠ .nan → req.Amount ≠ .nan →
        (r.Success = true ↔ acc.Balance.ge req.Amount = true))) ∧
    (acc.Balance.lt req.Amount = false →
      (s.CommitPayment R req).2.balance req.Account = some (acc.Balance.sub R req.Amount) ∧
      ∀ u, u ≠ req.Account → (s.CommitPayment R req).2.balance u = s.balance u) ∧
    (acc.Balance.ge req.Amount = true →
      ¬ (acc.Balance = .posInf ∧ req.Amount = .posInf) →
      ¬ (acc.Balance = .negInf ∧ req.Amount = .negInf) →
      Float64.le (.fin 0) (acc.Balance.sub R req.Amount) = true) ∧
    (acc.Balance.lt req.Amount = true →
      s.CommitPayment R req = (.ok ⟨false, "Insufficient funds on commit"⟩, s)) := by
  refine ⟨?_, ?_, fun h hp hn => sub_nonneg R h hp hn, ?_⟩
  · by_cases hlt : acc.Balance.lt req.Amount = true
    · refine ⟨⟨false, "Insufficient funds on commit"⟩,
        by simp [BankServer.CommitPayment, hacc, hs, hlt], by simp [hlt], ?_⟩
      intro ha hb
      simp only [Bool.false_eq_true, false_iff]
      intro hge
      rw [(not_lt_iff_ge ha hb).mpr hge] at hlt
      exact absurd hlt (by decide)
    · have hlt' : acc.Balance.lt req.Amount = false := by simpa using hlt
      refine ⟨⟨true, "Commit successful"⟩,
        by simp [BankServer.CommitPayment, hacc, hs, hlt'], by simp [hlt'], ?_⟩
      intro ha hb
      simp only [true_iff]
      exact (not_lt_iff_ge ha hb).mp hlt'
  · intro hlt
    simp only [BankServer.CommitPayment, hacc, hs, hlt, if_true, Bool.false_eq_true, if_false,
      BankServer.balance]
    refine ⟨by simp [Load_Store_self], ?_⟩
    intro u hu
    rw [Load_Store_of_ne hu]
  · intro hlt
    simp [BankServer.CommitPayment, hacc, hs, hlt]

/-- Witness of `CommitPayment_sender`: alice holds 100 and is debited 40. -/
theorem CommitPayment_sender_witness :
    ((BankServer.mk [("alice", ⟨"alice", "secret", .fin 100⟩)]).CommitPayment Rounding.exact
      ⟨"t1", "alice", .fin 40, true⟩).2.balance "alice" =
      some (Float64.sub Rounding.exact (.fin 100) (.fin 40)) ∧
    Float64.le (.fin 0) (Float64.sub Rounding.exact (.fin 100) (.fin 40)) = true :=
  ⟨((CommitPayment_sender Rounding.exact (BankServer.mk [("alice", ⟨"alice", "secret", .fin 100⟩)])
      ⟨"t1", "alice", .fin 40, true⟩ ⟨"alice", "secret", .fin 100⟩ (by decide) rfl).2.1
      (by decide)).1,
   (CommitPayment_sender Rounding.exact (BankServer.mk [("alice", ⟨"alice", "secret", .fin 100⟩)])
      ⟨"t1", "alice", .fin 40, true⟩ ⟨"alice", "secret", .fin 100⟩ (by decide) rfl).2.2.1
      (by decide) (by decide) (by decide)⟩

/-- C4, as stated, fails twice. On a bank whose only balance is 0, a
receiver-side `CommitPayment` (isSender = false) of amount -5 succeeds and
leaves the balance at -5. On a bank where alice holds 100, a sender-side
`CommitPayment` (isSender = true) of amount NaN succeeds and leaves the balance
NaN, which is not >= 0. -/
theorem CommitPayment_breaks_nonneg :
    (BankServer.mk [("bob", ⟨"bob", "secret", .fin 0⟩)]).nonneg ∧
    ((BankServer.mk [("bob", ⟨"bob", "secret", .fin 0⟩)]).CommitPayment Rounding.exact
      ⟨"t1", "bob", .fin (-5), false⟩) =
      (.ok ⟨true, "Commit successful"⟩,
        BankServer.mk [("bob", ⟨"bob", "secret", .fin (-5)⟩)]) ∧
    ¬ ((BankServer.mk [("bob", ⟨"bob", "secret", .fin 0⟩)]).CommitPayment Rounding.exact
      ⟨"t1", "bob", .fin (-5), false⟩).2.nonneg ∧
    (BankServer.mk [("alice", ⟨"alice", "secret", .fin 100⟩)]).nonneg ∧
    ((BankServer.mk [("alice", ⟨"alice", "secret", .fin 100⟩)]).CommitPayment Rounding.exact
      ⟨"t1", "alice", .nan, true⟩) =
      (.ok ⟨true, "Commit successful"⟩,
        BankServer.mk [("alice", ⟨"alice", "secret", .nan⟩)]) ∧
    ¬ ((BankServer.mk [("alice", ⟨"alice", "secret", .fin 100⟩)]).CommitPayment Rounding.exact
      ⟨"t1", "alice", .nan, true⟩).2.nonneg := by
  decide

/-- C4, amended: if every balance of a bank is >= 0 (so none is NaN), then
every balance is still >= 0 after any `PreparePayment` (any account, any
amount), after any `CommitPayment` with isSender = true whose amount is below
plus infinity (a finite amount of either sign, or minus infinity; not NaN), and
after any `CommitPayment` with isSender = false whose amount is >= 0. -/
theorem nonneg_preserved (R : Rounding) (s : BankServer) (h : s.nonneg) :
    (∀ p : PrepareRequest, (s.PreparePayment p).2.nonneg) ∧
    (∀ c : CommitRequest, c.IsSender = true → c.Amount.lt .posInf = true →
      (s.CommitPayment R c).2.nonneg) ∧
    (∀ c : CommitRequest, c.IsSender = false → Float64.le (.fin 0) c.Amount = true →
      (s.CommitPayment R c).2.nonneg) := by
  refine ⟨?_, ?_, ?_⟩
  · intro p
    unfold BankServer.PreparePayment
    split
    · exact h
    · split <;> exact h
  · intro c hs hfin
    unfold BankServer.CommitPayment
    split
    · exact h
    · rename_i acc hacc
      have hb : Float64.le (.fin 0) acc.Balance = true := h _ (mem_of_Load hacc)
      simp only [hs, if_true]
      split
      · exact h
      · rename_i hlt
        intro q hq
        rcases mem_Store hq with rfl | hq
        · simp only
          have hlt' : acc.Balance.lt c.Amount = false := by simpa using hlt
          have hbn : acc.Balance ≠ .nan := by
            intro hn
            rw [hn] at hb
            exact absurd hb (by decide)
          have han : c.Amount ≠ .nan := by
            intro hn
            rw [hn] at hfin
            exact absurd hfin (by decide)
          apply sub_nonneg R ((not_lt_iff_ge hbn han).mp hlt')
          · rintro ⟨-, ha⟩
            rw [ha] at hfin
            exact absurd hfin (by decide)
          · rintro ⟨hbneg, -⟩
            rw [hbneg] at hb
            exact absurd hb (by decide)
        · exact h q hq
  · intro c hs hamt
    unfold BankServer.CommitPayment
    split
    · exact h
    · rename_i acc hacc
      have hb : Float64.le (.fin 0) acc.Balance = true := h _ (mem_of_Load hacc)
      simp only [hs, Bool.false_eq_true, if_false]
      intro q hq
      rcases mem_Store hq with rfl | hq
      · exact add_nonneg R hb hamt
      · exact h q hq

/-- Witness of `nonneg_preserved`: a bank holding alice with 100, a debit of
40 and a credit of 40. -/
theorem nonneg_preserved_witness :
    (BankServer.mk [("alice", ⟨"alice", "secret", .fin 100⟩)]).nonneg ∧
    ((BankServer.mk [("alice", ⟨"alice", "secret", .fin 100⟩)]).CommitPayment Rounding.exact
      ⟨"t1", "alice", .fin 40, true⟩).2.nonneg ∧
    ((BankServer.mk [("alice", ⟨"alice", "secret", .fin 100⟩)]).CommitPayment Rounding.exact
      ⟨"t1", "alice", .fin 40, false⟩).2.nonneg :=
  ⟨by decide,
   (nonneg_preserved Rounding.exact (BankServer.mk [("alice", ⟨"alice", "secret", .fin 100⟩)])
      (by decide)).2.1 ⟨"t1", "alice", .fin 40, true⟩ rfl (by decide),
   (nonneg_preserved Rounding.exact (BankServer.mk [("alice", ⟨"alice", "secret", .fin 100⟩)])
      (by decide)).2.2 ⟨"t1", "alice", .fin 40, false⟩ rfl (by decide)⟩

/-! ## Offline queue -/

theorem fromJson_toJson (t : OfflineTransaction) (x : Int) (hx : t.Amount = .fin x) :
    ∃ o, t.toJson = .ok o ∧ OfflineTransaction.fromJson o = .ok t := by
  obtain ⟨a, b, c, d, e, f, g⟩ := t
  simp only at hx
  subst hx
  exact ⟨_, rfl, rfl⟩

theorem jsonObjects_jsonArray (ts : List OfflineTransaction)
    (h : ∀ t ∈ ts, t.Amount.isFinite = true) :
    ∃ os, jsonArray ts = .ok os ∧ jsonObjects os = .ok ts ∧ os.length = ts.length := by
  induction ts with
  | nil => exact ⟨[], rfl, rfl, rfl⟩
  | cons t ts ih =>
    obtain ⟨os, h1, h2, h3⟩ := ih (fun t ht => h t (List.mem_cons_of_mem _ ht))
    have ht := h t (List.mem_cons_self _ _)
    cases hamt : t.Amount with
    | fin x =>
      obtain ⟨o, ho1, ho2⟩ := fromJson_toJson t x hamt
      exact ⟨o :: os, by simp [jsonArray, ho1, h1], by simp [jsonObjects, ho2, h2],
        by simp [h3]⟩
    | nan => rw [hamt] at ht; exact absurd ht (by decide)
    | negInf => rw [hamt] at ht; exact absurd ht (by decide)
    | posInf => rw [hamt] at ht; exact absurd ht (by decide)

theorem jsonUnmarshal_jsonMarshalIndent (ts : List OfflineTransaction)
    (h : ∀ t ∈ ts, t.Amount.isFinite = true) :
    ∃ data, jsonMarshalIndent ts = .ok data ∧ jsonUnmarshal data = .ok ts := by
  cases ts with
  | nil => exact ⟨.null, rfl, rfl⟩
  | cons t ts =>
    obtain ⟨os, h1, h2, -⟩ := jsonObjects_jsonArray (t :: ts) h
    exact ⟨.array os, by simp [jsonMarshalIndent, h1], h2⟩

/-- C17, as stated, fails: a queue holding one payment whose amount is NaN (an
amount the client's parser accepts) cannot be marshalled, `saveOfflineQueue`
returns without writing, and `loadOfflineQueue` in a restarted client, whose
queue is empty, finds no file and leaves the queue empty. -/
theorem queue_with_NaN_is_not_saved :
    saveOfflineQueue
      [⟨⟨"1700000000000000000", "alice", "bob", .nan, "BankA:50052", "BankB:50053", "k1"⟩⟩]
      .written [] = [] ∧
    loadOfflineQueue "pending_transactions.json" []
      (saveOfflineQueue
        [⟨⟨"1700000000000000000", "alice", "bob", .nan, "BankA:50052", "BankB:50053", "k1"⟩⟩]
        .written []) = [] := by
  decide

/-- C17, amended: for every offline queue q whose amounts are finite (neither
NaN nor an infinity; the empty queue included), whatever the files held before
and whatever queue is in memory when loading, when the file is written,
`saveOfflineQueue` followed by `loadOfflineQueue` of "pending_transactions.json"
yields a queue equal to q: the same length, the same order, and every entry
with its seven request fields unchanged. -/
theorem offline_queue_round_trip (q q0 : List PaymentTransaction)
    (files : List (String × FileData))
    (hfin : ∀ tx ∈ q, tx.req.Amount.isFinite = true) :
    loadOfflineQueue "pending_transactions.json" q0 (saveOfflineQueue q .written files) = q ∧
    (loadOfflineQueue "pending_transactions.json" q0
      (saveOfflineQueue q .written files)).length = q.length := by
  have h : loadOfflineQueue "pending_transactions.json" q0
      (saveOfflineQueue q .written files) = q := by
    unfold saveOfflineQueue
    simp only [foldl_append_map, List.nil_append]
    obtain ⟨data, hm, hu⟩ := jsonUnmarshal_jsonMarshalIndent
      (q.map (fun tx : PaymentTransaction =>
        ({ TransactionId := tx.req.TransactionId
           SenderUsername := tx.req.SenderUsername
           ReceiverUsername := tx.req.ReceiverUsername
           Amount := tx.req.Amount
           SenderBank := tx.req.SenderBank
           ReceiverBank := tx.req.ReceiverBank
           IdempotencyKey := tx.req.IdempotencyKey } : OfflineTransaction)))
      (by
        intro t ht
        obtain ⟨tx, htx, rfl⟩ := List.mem_map.mp ht
        exact hfin tx htx)
    simp only [hm]
    unfold loadOfflineQueue
    simp only [Load_Store_self, hu, foldl_append_map, List.nil_append, List.map_map]
    conv_rhs => rw [← List.map_id q]
    apply List.map_congr_left
    intro tx _
    rfl
  exact ⟨h, by rw [h]⟩

/-- Witness of `offline_queue_round_trip`: a queue of two pending payments. -/
theorem offline_queue_round_trip_witness :
    loadOfflineQueue "pending_transactions.json" []
      (saveOfflineQueue
        [⟨⟨"1700000000000000000", "alice", "bob", .fin 40, "BankA:50052", "BankB:50053", "k1"⟩⟩,
         ⟨⟨"1700000000000000001", "bob", "alice", .fin 5, "BankB:50053", "BankA:50052", "k2"⟩⟩]
        .written []) =
      [⟨⟨"1700000000000000000", "alice", "bob", .fin 40, "BankA:50052", "BankB:50053", "k1"⟩⟩,
       ⟨⟨"1700000000000000001", "bob", "alice", .fin 5, "BankB:50053", "BankA:50052", "k2"⟩⟩] :=
  (offline_queue_round_trip
    [⟨⟨"1700000000000000000", "alice", "bob", .fin 40, "BankA:50052", "BankB:50053", "k1"⟩⟩,
     ⟨⟨"1700000000000000001", "bob", "alice", .fin 5, "BankB:50053", "BankA:50052", "k2"⟩⟩]
    [] [] (by decide)).1

end IEEE

/-! ## The coordinator over any banks -/

namespace Coordinator

theorem logged_Dial_error {σ : Type} {env : Env σ} {n : Nat} {target err : String}
    (h : env.Dial n target = .error err) : env.logged.Dial n target = .error err := by
  simp only [Env.logged, h]

theorem logged_Dial_ok {σ : Type} {env : Env σ} {n : Nat} {target : String}
    {c : BankServiceClient σ} (h : env.Dial n target = .ok c) :
    env.logged.Dial n target = .ok (c.logged target) := by
  simp only [Env.logged, h]

/-- Recording the calls changes nothing else: the run over recording
connections returns the same response and leaves the same gateway and the same
world as the run over the connections themselves. -/
theorem ProcessPayment_logged {σ : Type} (s : PaymentGatewayServer) (env : Env σ)
    (req : TransactionRequest) (w : σ) (l : List BankCall) :
    (ProcessPayment s env.logged req ⟨l, w⟩).resp = (ProcessPayment s env req w).resp ∧
    (ProcessPayment s env.logged req ⟨l, w⟩).gateway = (ProcessPayment s env req w).gateway ∧
    (ProcessPayment s env.logged req ⟨l, w⟩).world.world = (ProcessPayment s env req w).world := by
  by_cases hreg :
      ((Load req.SenderUsername s.users).isNone || (Load req.ReceiverUsername s.users).isNone) = true
  · simp [ProcessPayment, hreg]
  by_cases hkey : req.IdempotencyKey = ""
  · simp [ProcessPayment, hreg, hkey]
  cases hl : Load req.IdempotencyKey s.processedTxs with
  | some result =>
    simp only [ProcessPayment, hreg, hkey, hl]
    simp
  | none =>
  cases hd1 : env.Dial 0 req.SenderBank with
  | error e =>
    simp only [ProcessPayment, hreg, hkey, hl, hd1, logged_Dial_error hd1]
    simp
  | ok cS =>
  cases hd2 : env.Dial 1 req.ReceiverBank with
  | error e =>
    simp only [ProcessPayment, hreg, hkey, hl, hd1, hd2, logged_Dial_ok hd1, logged_Dial_error hd2]
    simp
  | ok cR =>
  simp only [ProcessPayment, hreg, hkey, hl, hd1, hd2, logged_Dial_ok hd1, logged_Dial_ok hd2,
    BankServiceClient.logged, Env.logged]
  simp only [Bool.false_eq_true, if_false]
  split_ifs <;> simp

/-- C18: the bank calls of every `ProcessPayment` run, recorded as they are
made and whatever the banks answer to them (a vote, a success or a refusal, an
error), form one of five sequences: no call at all; the sender's Prepare alone,
seen to fail; the sender's Prepare seen to vote true, the receiver's Prepare
seen to fail, then `AbortPayment` to the sender bank; both Prepares seen to
vote true, then the sender's Commit seen to fail; both Prepares seen to vote
true, the sender's Commit seen to succeed, then the receiver's Commit. So the
sender's Prepare is the first call, the receiver's Prepare follows only a true
sender vote, a Commit is sent only after two true votes, the sender's Commit
precedes the receiver's, which follows only a successful sender Commit, and
`AbortPayment` goes only to the sender bank and only after a failed receiver
Prepare. -/
theorem two_phase_order {σ : Type} (s : PaymentGatewayServer) (env : Env σ)
    (req : TransactionRequest) (w : σ) :
    (ProcessPayment s env.logged req ⟨[], w⟩).world.log = [] ∨
    (ProcessPayment s env.logged req ⟨[], w⟩).world.log =
      [.PreparePayment req.SenderBank
        ⟨req.TransactionId, req.SenderUsername, req.Amount⟩ false] ∨
    (ProcessPayment s env.logged req ⟨[], w⟩).world.log =
      [.PreparePayment req.SenderBank
        ⟨req.TransactionId, req.SenderUsername, req.Amount⟩ true,
       .PreparePayment req.ReceiverBank
        ⟨req.TransactionId, req.ReceiverUsername, req.Amount⟩ false,
       .AbortPayment req.SenderBank ⟨req.TransactionId⟩] ∨
    (ProcessPayment s env.logged req ⟨[], w⟩).world.log =
      [.PreparePayment req.SenderBank
        ⟨req.TransactionId, req.SenderUsername, req.Amount⟩ true,
       .PreparePayment req.ReceiverBank
        ⟨req.TransactionId, req.ReceiverUsername, req.Amount⟩ true,
       .CommitPayment req.SenderBank
        ⟨req.TransactionId, req.SenderUsername, req.Amount, true⟩ false] ∨
    (∃ ok, (ProcessPayment s env.logged req ⟨[], w⟩).world.log =
      [.PreparePayment req.SenderBank
        ⟨req.TransactionId, req.SenderUsername, req.Amount⟩ true,
       .PreparePayment req.ReceiverBank
        ⟨req.TransactionId, req.ReceiverUsername, req.Amount⟩ true,
       .CommitPayment req.SenderBank
        ⟨req.TransactionId, req.SenderUsername, req.Amount, true⟩ true,
       .CommitPayment req.ReceiverBank
        ⟨req.TransactionId, req.ReceiverUsername, req.Amount, false⟩ ok]) := by
  by_cases hreg :
      ((Load req.SenderUsername s.users).isNone || (Load req.ReceiverUsername s.users).isNone) = true
  · left
    simp [ProcessPayment, hreg]
  by_cases hkey : req.IdempotencyKey = ""
  · left
    simp [ProcessPayment, hreg, hkey]
  cases hl : Load req.IdempotencyKey s.processedTxs with
  | some result =>
    left
    simp only [ProcessPayment, hreg, hkey, hl]
    simp
  | none =>
  cases hd1 : env.Dial 0 req.SenderBank with
  | error e =>
    left
    simp only [ProcessPayment, hreg, hkey, hl, logged_Dial_error hd1]
    simp
  | ok cS =>
  cases hd2 : env.Dial 1 req.ReceiverBank with
  | error e =>
    left
    simp only [ProcessPayment, hreg, hkey, hl, logged_Dial_ok hd1, logged_Dial_error hd2]
    simp
  | ok cR =>
  simp only [ProcessPayment, hreg, hkey, hl, logged_Dial_ok hd1, logged_Dial_ok hd2]
  simp only [Bool.false_eq_true, if_false]
  split_ifs with h1 h2 h3 h4
  · simp only [Bool.not_eq_true', Bool.not_eq_true, BankServiceClient.logged] at h1
    right; left
    simp [BankServiceClient.logged, h1]
  · simp only [Bool.not_eq_true', Bool.not_eq_true, Bool.not_eq_false,
      BankServiceClient.logged] at h1 h2
    right; right; left
    simp [BankServiceClient.logged, h1, h2]
  · simp only [Bool.not_eq_true', Bool.not_eq_true, Bool.not_eq_false,
      BankServiceClient.logged] at h1 h2 h3
    right; right; right; left
    simp [BankServiceClient.logged, h1, h2, h3]
  · simp only [Bool.not_eq_true', Bool.not_eq_true, Bool.not_eq_false,
      BankServiceClient.logged] at h1 h2 h3 h4
    right; right; right; right
    exact ⟨false, by simp [BankServiceClient.logged, h1, h2, h3, h4]⟩
  · simp only [Bool.not_eq_true', Bool.not_eq_true, Bool.not_eq_false,
      BankServiceClient.logged] at h1 h2 h3 h4
    right; right; right; right
    exact ⟨true, by simp [BankServiceClient.logged, h1, h2, h3, h4]⟩

/-- A run in which a bank refuses a Commit: alice holds 100, bob 50, alice pays
40, and another client debits alice 80 after the votes; the sender's Commit is
delivered and answered success = false, and the receiver's Commit is never
sent. -/
theorem refused_sender_commit_run :
    (ProcessPayment scenarioGateway (wireEnv "2025-01-01T00:00:00Z").logged (scenarioRequest 40)
      ⟨[], Wire.start (scenarioBanks 100 50) scheduleDrained⟩).world.log =
      [.PreparePayment "BankA:50052" ⟨"1700000000000000000", "alice", 40⟩ true,
       .PreparePayment "BankB:50053" ⟨"1700000000000000000", "bob", 40⟩ true,
       .CommitPayment "BankA:50052" ⟨"1700000000000000000", "alice", 40, true⟩ false] ∧
    ((BankServer.mk [("alice", ⟨"alice", "secret", 20⟩)]).CommitPayment
      ⟨"1700000000000000000", "alice", 40, true⟩).1 =
      .ok ⟨false, "Insufficient funds on commit"⟩ := by
  decide

/-- C11: in every `ProcessPayment` run with both users registered and a fresh
non-empty key, whatever the banks are, as soon as one of the bank calls made
(sender Prepare, receiver Prepare, sender Commit, receiver Commit) comes back
with an RPC error, a false vote or success = false, the call returns an error
with code Aborted, the ledger entry of the key ends at false (aborted, not
committed), and the history is as before. -/
theorem bank_failure_aborts {σ : Type} (s : PaymentGatewayServer) (env : Env σ)
    (req : TransactionRequest) (w : σ)
    (hS : Load req.SenderUsername s.users ≠ none)
    (hR : Load req.ReceiverUsername s.users ≠ none)
    (hk : req.IdempotencyKey ≠ "") (hfresh : Load req.IdempotencyKey s.processedTxs = none)
    (hfail : ∃ c ∈ (ProcessPayment s env.logged req ⟨[], w⟩).world.log, c.failed = true) :
    (∃ msg, (ProcessPayment s env.logged req ⟨[], w⟩).resp = .error ⟨codes.Aborted, msg⟩) ∧
    Load req.IdempotencyKey (ProcessPayment s env.logged req ⟨[], w⟩).gateway.processedTxs =
      some false ∧
    (ProcessPayment s env.logged req ⟨[], w⟩).gateway.history = s.history := by
  have hreg := registered_of_not_isNone hS hR
  cases hd1 : env.Dial 0 req.SenderBank with
  | error e =>
    simp [ProcessPayment, hreg, hk, hfresh, logged_Dial_error hd1] at hfail
  | ok cS =>
  cases hd2 : env.Dial 1 req.ReceiverBank with
  | error e =>
    simp [ProcessPayment, hreg, hk, hfresh, logged_Dial_ok hd1, logged_Dial_error hd2] at hfail
  | ok cR =>
  simp only [ProcessPayment, hreg, hk, hfresh, logged_Dial_ok hd1, logged_Dial_ok hd2]
    at hfail ⊢
  simp only [Bool.false_eq_true, if_false] at hfail ⊢
  split_ifs at hfail ⊢ with h1 h2 h3 h4
  · simp [Load_Store_self]
  · simp [Load_Store_self]
  · simp [Load_Store_self]
  · simp [Load_Store_self]
  · exfalso
    simp only [Bool.not_eq_true', Bool.not_eq_true, Bool.not_eq_false,
      BankServiceClient.logged] at h1 h2 h3 h4
    simp [BankServiceClient.logged, BankCall.failed, h1, h2, h3, h4] at hfail

/-- Witness of `bank_failure_aborts`: alice holds 100, bob 50, alice pays 40,
and another client debits alice 80 after the votes, so the sender's bank
answers the Commit with success = false ("Insufficient funds on commit"). -/
theorem bank_failure_aborts_witness :
    (ProcessPayment scenarioGateway (wireEnv "2025-01-01T00:00:00Z").logged (scenarioRequest 40)
      ⟨[], Wire.start (scenarioBanks 100 50) scheduleDrained⟩).resp =
      .error ⟨codes.Aborted, "Sender bank commit failed"⟩ ∧
    (∃ msg, (ProcessPayment scenarioGateway (wireEnv "2025-01-01T00:00:00Z").logged
      (scenarioRequest 40) ⟨[], Wire.start (scenarioBanks 100 50) scheduleDrained⟩).resp =
      .error ⟨codes.Aborted, msg⟩) ∧
    Load "k1" (ProcessPayment scenarioGateway (wireEnv "2025-01-01T00:00:00Z").logged
      (scenarioRequest 40)
      ⟨[], Wire.start (scenarioBanks 100 50) scheduleDrained⟩).gateway.processedTxs =
      some false ∧
    (ProcessPayment scenarioGateway (wireEnv "2025-01-01T00:00:00Z").logged (scenarioRequest 40)
      ⟨[], Wire.start (scenarioBanks 100 50) scheduleDrained⟩).gateway.history = [] :=
  ⟨by decide,
   bank_failure_aborts scenarioGateway (wireEnv "2025-01-01T00:00:00Z") (scenarioRequest 40)
     (Wire.start (scenarioBanks 100 50) scheduleDrained) (by decide) (by decide) (by decide)
     (by decide) (by decide)⟩

/-- C12, amended: every `ProcessPayment` call that returns a success response
has Success = true and is of one of two kinds. Either it is the committed
response "Transaction committed successfully", and then, when the history file
is read and written without error, the history afterwards is the history
before with exactly one record appended, whose transactionId (and sender, receiver and amount) are the
request's; or it is the replay response "Transaction already processed: ..."
for a key already in the ledger, and then the gateway, its history included,
and the banks are unchanged. -/
theorem success_history {σ : Type} (s : PaymentGatewayServer) (env : Env σ)
    (req : TransactionRequest) (w : σ) (x : TransactionResponse)
    (hok : (ProcessPayment s env req w).resp = .ok x) :
    x.Success = true ∧
    ((x.Message = "Transaction committed successfully" ∧
        (env.historyFile = .written →
          (ProcessPayment s env req w).gateway.history =
            s.history ++ [⟨req.TransactionId, req.SenderUsername, req.ReceiverUsername,
              req.Amount, env.now, "Transaction committed successfully"⟩] ∧
          (ProcessPayment s env req w).gateway.history.length = s.history.length + 1)) ∨
      (∃ v, Load req.IdempotencyKey s.processedTxs = some v ∧
        x.Message = "Transaction already processed: " ++ toString v ∧
        (ProcessPayment s env req w).gateway = s ∧
        (ProcessPayment s env req w).world = w)) := by
  by_cases hreg :
      ((Load req.SenderUsername s.users).isNone || (Load req.ReceiverUsername s.users).isNone) = true
  · simp [ProcessPayment, hreg] at hok
  by_cases hkey : req.IdempotencyKey = ""
  · simp [ProcessPayment, hreg, hkey] at hok
  cases hl : Load req.IdempotencyKey s.processedTxs with
  | some result =>
    simp only [ProcessPayment, hreg, hkey, hl] at hok ⊢
    simp only [Bool.false_eq_true, if_false, Except.ok.injEq] at hok
    subst hok
    exact ⟨rfl, Or.inr ⟨result, rfl, rfl, rfl, rfl⟩⟩
  | none =>
  cases hd1 : env.Dial 0 req.SenderBank with
  | error e => simp [ProcessPayment, hreg, hkey, hl, hd1] at hok
  | ok cS =>
  cases hd2 : env.Dial 1 req.ReceiverBank with
  | error e => simp [ProcessPayment, hreg, hkey, hl, hd1, hd2] at hok
  | ok cR =>
  simp only [ProcessPayment, hreg, hkey, hl, hd1, hd2] at hok ⊢
  simp only [Bool.false_eq_true, if_false] at hok ⊢
  split_ifs at hok ⊢
  simp only [Except.ok.injEq] at hok
  subst hok
  refine ⟨rfl, Or.inl ⟨rfl, ?_⟩⟩
  intro hw
  simp [storeTransactionRecord, hw]

/-- Witness of `success_history`: alice pays bob 40 and the call commits. -/
theorem success_history_witness :
    (ProcessPayment scenarioGateway (wireEnv "2025-01-01T00:00:00Z") (scenarioRequest 40)
      (Wire.start (scenarioBanks 100 50) [])).resp =
      .ok ⟨true, "Transaction committed successfully"⟩ ∧
    (ProcessPayment scenarioGateway (wireEnv "2025-01-01T00:00:00Z") (scenarioRequest 40)
      (Wire.start (scenarioBanks 100 50) [])).gateway.history.length = 1 := by
  refine ⟨by decide, ?_⟩
  have h := (success_history scenarioGateway (wireEnv "2025-01-01T00:00:00Z")
    (scenarioRequest 40) (Wire.start (scenarioBanks 100 50) [])
    ⟨true, "Transaction committed successfully"⟩ (by decide)).2
  rcases h with h | h
  · exact (h.2 rfl).2
  · obtain ⟨v, -, hv, -⟩ := h
    exact absurd hv.symm (replay_ne_committed v)

theorem untouched_arrive {w0 w : Wire} (h : Wire.untouched w0 w) :
    Wire.untouched w0 w.arrive := by
  obtain ⟨h1, h2, h3⟩ := h
  refine ⟨by simp [Wire.arrive, h1], h2, ?_⟩
  intro hq
  obtain ⟨hb, hwq⟩ := h3 hq
  have hstep : w.step.others = [] := by
    unfold Wire.step
    cases hs : w.schedule with
    | nil => rfl
    | cons st rest => exact hwq st (by simp [hs])
  refine ⟨by simp [Wire.arrive, hstep, interleave, hb], ?_⟩
  intro st hst
  exact hwq st (List.mem_of_mem_tail hst)

theorem wire_prepare (target : String) (req : PrepareRequest) (w : Wire) :
    ((wireClient target).PreparePayment req w).2 = w.arrive := by
  simp only [wireClient, rpc_PreparePayment_banks]

theorem wire_abort (target : String) (req : AbortRequest) (w : Wire) :
    ((wireClient target).AbortPayment req w).2 = w.arrive := by
  simp only [wireClient, rpc_AbortPayment_banks]

theorem commit_not_applied {link : Link} {banks : List (String × BankServer)}
    {target : String} {req : CommitRequest}
    (h : commitApplied link banks target req = false) :
    (rpc link banks target (fun b => b.CommitPayment req)).2 = banks := by
  have hstate : ∀ b : BankServer, succeeded (b.CommitPayment req).1 = false →
      (b.CommitPayment req).2 = b := by
    intro b hb
    cases hacc : Load req.Account b.accounts with
    | none => simp [BankServer.CommitPayment, hacc]
    | some acc =>
      by_cases hs : req.IsSender = true
      · by_cases hlt : acc.Balance < req.Amount
        · simp [BankServer.CommitPayment, hacc, hs, hlt]
        · simp [BankServer.CommitPayment, hacc, hs, hlt, succeeded] at hb
      · simp [BankServer.CommitPayment, hacc, hs, succeeded] at hb
  cases link
  case requestLost => rfl
  case delivered =>
    simp only [rpc, commitApplied] at h ⊢
    cases hb : Load target banks with
    | none => rfl
    | some b =>
      simp only [hb] at h ⊢
      rw [hstate b h]
      exact Store_eq_self hb
  case replyLost =>
    simp only [rpc, commitApplied] at h ⊢
    cases hb : Load target banks with
    | none => rfl
    | some b =>
      simp only [hb] at h ⊢
      rw [hstate b h]
      exact Store_eq_self hb

theorem succeeded_commitApplied {link : Link} {banks : List (String × BankServer)}
    {target : String} {req : CommitRequest}
    (h : succeeded (rpc link banks target (fun b => b.CommitPayment req)).1 = true) :
    commitApplied link banks target req = true := by
  cases link
  case requestLost => simp [rpc, succeeded] at h
  case replyLost =>
    simp only [rpc] at h
    cases hb : Load target banks <;> simp [hb, succeeded] at h
  case delivered =>
    simp only [rpc, commitApplied] at h ⊢
    cases hb : Load target banks with
    | none => simp [hb, succeeded] at h
    | some b =>
      simp only [hb] at h ⊢
      exact h

theorem wire_commit_not_applied {target : String} {req : CommitRequest} {w : Wire}
    (h : commitApplied w.step.link w.arrive.banks target req = false) :
    ((wireClient target).CommitPayment req w).2 = w.arrive := by
  simp only [wireClient, h, commit_not_applied h, Bool.false_eq_true, if_false]
  rfl

theorem wire_commit_applied {target : String} {req : CommitRequest} {w : Wire}
    (h : commitApplied w.step.link w.arrive.banks target req = true) :
    ((wireClient target).CommitPayment req w).2.applied = w.applied ++ [(target, req)] := by
  simp only [wireClient, h, if_true]

theorem wire_commit_applied_le (target : String) (req : CommitRequest) (w : Wire) :
    w.applied.length ≤ ((wireClient target).CommitPayment req w).2.applied.length := by
  simp only [wireClient]
  split <;> simp

theorem untouched_of_run (s : PaymentGatewayServer) (now : String)
    (req : TransactionRequest) (w : Wire) (hw : w.banks = w.alone)
    (hnone : (ProcessPayment s (wireEnv now) req w).world.applied = w.applied) :
    Wire.untouched w (ProcessPayment s (wireEnv now) req w).world := by
  have h0 : Wire.untouched w w := ⟨hw, rfl, fun hq => ⟨rfl, hq⟩⟩
  by_cases hreg :
      ((Load req.SenderUsername s.users).isNone || (Load req.ReceiverUsername s.users).isNone) = true
  · simpa [ProcessPayment, hreg] using h0
  by_cases hkey : req.IdempotencyKey = ""
  · simpa [ProcessPayment, hreg, hkey] using h0
  cases hl : Load req.IdempotencyKey s.processedTxs with
  | some result =>
    simp only [ProcessPayment, hreg, hkey, hl]
    simpa using h0
  | none =>
  simp only [ProcessPayment, hreg, hkey, hl, wireEnv] at hnone ⊢
  simp only [Bool.false_eq_true, if_false, wire_prepare, wire_abort] at hnone ⊢
  have grow : ∀ (l : List (String × CommitRequest)) (x : String × CommitRequest),
      l ++ [x] ≠ l := by
    intro l x h
    have := congrArg List.length h
    simp at this
  split_ifs at hnone ⊢ with h1 h2 h3 h4
  · exact untouched_arrive h0
  · exact untouched_arrive (untouched_arrive (untouched_arrive h0))
  · by_cases hca : commitApplied w.arrive.arrive.step.link w.arrive.arrive.arrive.banks
        req.SenderBank ⟨req.TransactionId, req.SenderUsername, req.Amount, true⟩ = true
    · exfalso
      rw [wire_commit_applied hca] at hnone
      exact grow _ _ hnone
    · rw [wire_commit_not_applied (by simpa using hca)]
      exact untouched_arrive (untouched_arrive (untouched_arrive h0))
  · exfalso
    have hca : commitApplied w.arrive.arrive.step.link w.arrive.arrive.arrive.banks
        req.SenderBank ⟨req.TransactionId, req.SenderUsername, req.Amount, true⟩ = true := by
      apply succeeded_commitApplied
      simpa [wireClient] using h3
    have hle := wire_commit_applied_le req.ReceiverBank
      ⟨req.TransactionId, req.ReceiverUsername, req.Amount, false⟩
      ((wireClient req.SenderBank).CommitPayment
        ⟨req.TransactionId, req.SenderUsername, req.Amount, true⟩ w.arrive.arrive).2
    rw [hnone, wire_commit_applied hca] at hle
    simp [Wire.arrive] at hle
  · exfalso
    have hca : commitApplied w.arrive.arrive.step.link w.arrive.arrive.arrive.banks
        req.SenderBank ⟨req.TransactionId, req.SenderUsername, req.Amount, true⟩ = true := by
      apply succeeded_commitApplied
      simpa [wireClient] using h3
    have hle := wire_commit_applied_le req.ReceiverBank
      ⟨req.TransactionId, req.ReceiverUsername, req.Amount, false⟩
      ((wireClient req.SenderBank).CommitPayment
        ⟨req.TransactionId, req.SenderUsername, req.Amount, true⟩ w.arrive.arrive).2
    rw [hnone, wire_commit_applied hca] at hle
    simp [Wire.arrive] at hle

/-- C3, amended, with balances and amounts read as exact numbers: for every
`ProcessPayment` run that ends aborted and in which no Commit of the run took
effect at a bank (it is aborted at sender Prepare, at receiver Prepare, or at a
sender Commit that the bank refused or that never reached it), whatever the
banks answer, whatever the network does and whatever other clients do at the
banks meanwhile, the run itself changes no balance:
the banks afterwards are as the other clients alone would have left them, and
so is the sum of all balances. When no other client acts during the run, no
bank state changes and the sum of all bank balances after the run equals the
sum before it. -/
theorem aborted_without_commit_changes_nothing (s : PaymentGatewayServer) (now : String)
    (req : TransactionRequest) (w : Wire) (hw : w.banks = w.alone)
    (_ha : (ProcessPayment s (wireEnv now) req w).aborted)
    (hnone : (ProcessPayment s (wireEnv now) req w).world.applied = w.applied) :
    (ProcessPayment s (wireEnv now) req w).world.banks =
      (ProcessPayment s (wireEnv now) req w).world.alone ∧
    totalBalance (ProcessPayment s (wireEnv now) req w).world.banks =
      totalBalance (ProcessPayment s (wireEnv now) req w).world.alone ∧
    (w.quiet →
      (ProcessPayment s (wireEnv now) req w).world.banks = w.banks ∧
      totalBalance (ProcessPayment s (wireEnv now) req w).world.banks =
        totalBalance w.banks) := by
  obtain ⟨h1, -, h3⟩ := untouched_of_run s now req w hw hnone
  refine ⟨h1, by rw [h1], ?_⟩
  intro hq
  exact ⟨(h3 hq).1, by rw [(h3 hq).1]⟩

/-- Witness of `aborted_without_commit_changes_nothing`: alice holds 100, bob
50, alice pays 40, and another client debits alice 80 after the votes. The
sender's bank refuses the Commit, the run is aborted, and the banks hold what
the other client left: alice 20, bob 50. -/
theorem aborted_without_commit_changes_nothing_witness :
    (ProcessPayment scenarioGateway (wireEnv "2025-01-01T00:00:00Z") (scenarioRequest 40)
      (Wire.start (scenarioBanks 100 50) scheduleDrained)).resp =
      .error ⟨codes.Aborted, "Sender bank commit failed"⟩ ∧
    (ProcessPayment scenarioGateway (wireEnv "2025-01-01T00:00:00Z") (scenarioRequest 40)
      (Wire.start (scenarioBanks 100 50) scheduleDrained)).world.alone = scenarioBanks 20 50 ∧
    (ProcessPayment scenarioGateway (wireEnv "2025-01-01T00:00:00Z") (scenarioRequest 40)
      (Wire.start (scenarioBanks 100 50) scheduleDrained)).world.banks =
      (ProcessPayment scenarioGateway (wireEnv "2025-01-01T00:00:00Z") (scenarioRequest 40)
        (Wire.start (scenarioBanks 100 50) scheduleDrained)).world.alone :=
  ⟨by decide, by decide,
   (aborted_without_commit_changes_nothing scenarioGateway "2025-01-01T00:00:00Z"
      (scenarioRequest 40) (Wire.start (scenarioBanks 100 50) scheduleDrained) rfl
      ⟨"Sender bank commit failed", by decide⟩ (by decide)).1⟩

/-- The run over a `Network` and the banks alone is the coordinator's run over
the connections that the network describes: the same response, the same
gateway, the same banks, and the calls listed in the run are the calls
recorded when made. -/
theorem ProcessPayment_ofNetwork (s : PaymentGatewayServer) (net : Network)
    (banks : List (String × BankServer)) (req : TransactionRequest) :
    (ProcessPayment s (ofNetwork net) req banks).resp = (s.ProcessPayment net banks req).resp ∧
    (ProcessPayment s (ofNetwork net) req banks).gateway =
      (s.ProcessPayment net banks req).gateway ∧
    (ProcessPayment s (ofNetwork net) req banks).world = (s.ProcessPayment net banks req).banks ∧
    (ProcessPayment s (ofNetwork net).logged req ⟨[], banks⟩).world.log =
      (s.ProcessPayment net banks req).calls := by
  by_cases hreg :
      ((Load req.SenderUsername s.users).isNone || (Load req.ReceiverUsername s.users).isNone) = true
  · simp [ProcessPayment, PaymentGatewayServer.ProcessPayment, hreg]
  by_cases hkey : req.IdempotencyKey = ""
  · simp [ProcessPayment, PaymentGatewayServer.ProcessPayment, hreg, hkey]
  cases hl : Load req.IdempotencyKey s.processedTxs with
  | some result =>
    simp only [ProcessPayment, PaymentGatewayServer.ProcessPayment, hreg, hkey, hl]
    simp
  | none =>
  cases hd1 : net.dial req.SenderBank with
  | some e =>
    simp only [ProcessPayment, PaymentGatewayServer.ProcessPayment, hreg, hkey, hl, hd1,
      ofNetwork, Env.logged]
    simp
  | none =>
  cases hd2 : net.dial req.ReceiverBank with
  | some e =>
    simp only [ProcessPayment, PaymentGatewayServer.ProcessPayment, hreg, hkey, hl, hd1, hd2,
      ofNetwork, Env.logged]
    simp
  | none =>
  simp only [ProcessPayment, PaymentGatewayServer.ProcessPayment, hreg, hkey, hl, hd1, hd2,
    ofNetwork, Env.logged, linkClient, BankServiceClient.logged]
  simp only [Bool.false_eq_true, if_false, if_true, Nat.one_ne_zero,
    PaymentGatewayServer.storeTransactionRecord, storeTransactionRecord]
  split_ifs <;> simp

end Coordinator

end PaymentGateway
